import Mathlib

/-!
# Verification of PicoModal (src/picoModal.js)

A shallow embedding of the single-file modal-dialog widget. The DOM is
modelled as an indexed list of elements; each builder/lifecycle function of
the source is translated into an explicit state-passing Lean function.

Modelling notes, matched line-by-line against the source:

* `memoize` (js lines 45-55): each memoized builder closure is represented
  by an explicit memo cell (`Option` field) in the modal state, plus a ghost
  counter recording how many times the underlying callback body ran.
* `observable` (60-72): a callback list; `trigger` does
  `window.setTimeout(cb.bind(window, modal), 1)` for each callback, i.e. it
  only *schedules* the call.  We model the macrotask queue as a `pending`
  list of (callback id, argument) pairs; a separate `runTimer` step dequeues
  and records the actual invocation in `invoked`.
* `make` (78-160): creates a div, appends it under the parent (or body,
  modelled as parent `none`), and returns a handle.  The handle methods
  that end in `return iface` are modelled as returning `some id`; `hide`
  and `show` have no return statement (they return `undefined` = `none`).
* `stylize` (93-108) mutates the *passed* style object when it contains an
  `opacity` key (it assigns `styles.filter = ...`).  Style maps are
  association lists; since the map handed to `stylize` by the builders is
  the very object stored in the user's options (`getOption` returns the
  reference), the builders write the updated map back into the options
  exactly when the option was explicitly set.  (The model assumes the three
  style options are distinct objects, as the reference semantics would
  share mutations between aliased maps.)
* numbers are modelled as `ℚ` (exact for the only arithmetic performed:
  halving a width and scaling an opacity by 100).
* string-producing arithmetic is kept symbolic in `SVal`: `SVal.px q`
  stands for the JS string `q + "px"`, `SVal.margin0001px q` for
  `"0 0 0 " + q + "px"`, and `SVal.alphaFilter q` for
  `"alpha(opacity=" + q*100 + ")"`.
* calling a JS `undefined` value, or reading a property of `undefined`,
  is a `TypeError`; fallible operations return `Except JsErr`.
-/

namespace PicoModal

/-- A content value: a markup string or a DOM node (`isNode`/`isString`). -/
inductive Content
  | str (s : String)
  | node (id : Nat)
deriving DecidableEq, Repr

/-- A style value.  Constructors other than `str`/`num` record the string
concatenations performed by the source symbolically. -/
inductive SVal
  | str (v : String)
  | num (q : ℚ)
  | px (q : ℚ)
  | margin0001px (q : ℚ)
  | alphaFilter (q : ℚ)
  | alphaNaN (v : SVal)
deriving DecidableEq, Repr

/-- A click handler: the modal's `close` function, the no-op
`function(){}` installed when `overlayClose` is falsy, or an arbitrary
user handler. -/
inductive Handler
  | closeH
  | noopH
  | userH (n : Nat)
deriving DecidableEq, Repr

/-- A JS object used as a style map: an insertion-ordered association
list, as iterated by `for (var prop in styles)`. -/
abbrev StyleMap := List (String × SVal)

/-- JS property assignment `obj[k] = v`: overwrite in place if the key is
present, else append (insertion order preserved). -/
def aset : StyleMap → String → SVal → StyleMap
  | [], k, v => [(k, v)]
  | (k', v') :: rest, k, v =>
    if k' = k then (k, v) :: rest else (k', v') :: aset rest k v

/-- JS property read `obj[k]` (first = only occurrence wins; `aset` keeps
keys unique if they start unique). -/
def alookup : StyleMap → String → Option SVal
  | [], _ => none
  | (k', v') :: rest, k => if k' = k then some v' else alookup rest k

/-- The value written to `styles.filter`:
`"alpha(opacity=" + (styles.opacity * 100) + ")"`.  A non-numeric opacity
would concatenate a NaN-producing product; kept symbolic. -/
def filterVal : SVal → SVal
  | .num q => .alphaFilter q
  | v => .alphaNaN v

/-- The first half of `stylize`: if the map defines `opacity`, assign a
`filter` key into the same map (this is the mutation of the caller's
object). -/
def addFilter (m : StyleMap) : StyleMap :=
  match alookup m "opacity" with
  | none => m
  | some v => aset m "filter" (filterVal v)

/-- The second half of `stylize`: `for (var prop in styles) elem.style[prop]
= styles[prop]` applied to an element's style map `st`. -/
def applyMap (st : StyleMap) : StyleMap → StyleMap
  | [] => st
  | (k, v) :: rest => applyMap (aset st k v) rest

/-- A DOM element as far as the widget observes it. `parent = none` means
the element was appended to `document.body`.  `inDoc = false` after
`document.body.removeChild(elem)`. -/
structure Elem where
  parent : Option Nat
  style : StyleMap
  className : String
  content : Option Content
  handlers : List Handler
  inDoc : Bool
deriving DecidableEq, Repr

/-- The document: elements indexed by creation order. -/
abbrev Dom := List Elem

/-- A freshly created `div` element (`document.createElement('div')`,
appended under `parent`). -/
def mkDiv (parent : Option Nat) : Elem :=
  { parent := parent, style := [], className := "", content := none,
    handlers := [], inDoc := true }

/-- Update the element at index `i` in place. -/
def upd : Dom → Nat → (Elem → Elem) → Dom
  | [], _, _ => []
  | e :: es, 0, f => f e :: es
  | e :: es, i + 1, f => e :: upd es i f

/-- `clazz`: `elem.className += clazz`. -/
def clazzOp (d : Dom) (i : Nat) (c : String) : Dom :=
  upd d i fun e => { e with className := e.className ++ c }

/-- `html`: appends a node or assigns `innerHTML`; either way the element's
content becomes the given value (a `none` mirrors `.html(undefined)`). -/
def htmlOp (d : Dom) (i : Nat) (c : Option Content) : Dom :=
  upd d i fun e => { e with content := c }

/-- `onClick`: `addEventListener('click', callback)` (or `attachEvent`),
appending to the listener list. -/
def onClickOp (d : Dom) (i : Nat) (h : Handler) : Dom :=
  upd d i fun e => { e with handlers := e.handlers ++ [h] }

/-- `hide`: `elem.style.display = "none"`. -/
def hideOp (d : Dom) (i : Nat) : Dom :=
  upd d i fun e => { e with style := aset e.style "display" (.str "none") }

/-- `show`: `elem.style.display = "block"`. -/
def showOp (d : Dom) (i : Nat) : Dom :=
  upd d i fun e => { e with style := aset e.style "display" (.str "block") }

/-- Element `destroy`: `document.body.removeChild(elem)`. -/
def removeOp (d : Dom) (i : Nat) : Dom :=
  upd d i fun e => { e with inDoc := false }

/-- `stylize(styles)`: add the legacy `filter` key into the passed map when
it defines `opacity`, then copy every property onto the element's style.
Returns the (possibly mutated) map, since the caller's object was updated
in place. -/
def stylizeOp (d : Dom) (i : Nat) (m : StyleMap) : Dom × StyleMap :=
  let m' := addFilter m
  (upd d i (fun e => { e with style := applyMap e.style m' }), m')

/-- The methods of the element handle `iface` (js lines 83-157) that the
chaining claim is about, with their arguments. -/
inductive Method
  | mStylize (m : StyleMap)
  | mClazz (c : String)
  | mHtml (c : Option Content)
  | mOnClick (h : Handler)
  | mHide
  | mShow
deriving Repr

/-- Dispatch a handle method: the second component is the method's return
value, `some i` for `return iface` (the same handle) and `none` for the
methods with no return statement (`hide`, `show` return `undefined`). -/
def callMethod (d : Dom) (i : Nat) : Method → Dom × Option Nat
  | .mStylize m => ((stylizeOp d i m).1, some i)
  | .mClazz c => (clazzOp d i c, some i)
  | .mHtml c => (htmlOp d i c, some i)
  | .mOnClick h => (onClickOp d i h, some i)
  | .mHide => (hideOp d i, none)
  | .mShow => (showOp d i, none)

/-- The recognized configuration options (spec section 3); a missing field
is an undefined property. -/
structure Options where
  content : Option Content := none
  width : Option ℚ := none
  overlayStyles : Option StyleMap := none
  modalStyles : Option StyleMap := none
  closeStyles : Option StyleMap := none
  overlayClose : Option Bool := none
  closeButton : Option Bool := none
  closeHtml : Option Content := none
deriving DecidableEq, Repr

/-- `getOption(opt, defaultValue)`:
`options[opt] === void(0) ? defaultValue : options[opt]`. -/
def getOpt {α : Type} : Option α → α → α
  | some x, _ => x
  | none, d => d

/-- The rendering environment: `elem.clientWidth` for a given element. -/
structure Env where
  widthOf : Nat → ℚ

/-- A JS runtime error surfaced by calling or dereferencing `undefined`. -/
inductive JsErr
  | typeErr (msg : String)
deriving DecidableEq, Repr

/-- The argument passed to every triggered observer:
`callbacks[i].bind(window, modal)` binds the modal facade. -/
inductive CbArg
  | facade
deriving DecidableEq, Repr

/-- The whole state of one `picoModal(options)` instance plus its document.
`destroyed` models the fact that `destroy()` overwrote the `modalElem`,
`shadowElem` and `closeElem` variables with `undefined`; the memo cells
survive because the element accessors captured the original memoized
builders.  `nBuild*` are ghost counters of how many times each builder
body executed. -/
structure MState where
  dom : Dom
  opts : Options
  modalMemo : Option Nat
  shadowMemo : Option Nat
  closeMemo : Option (Option Nat)
  destroyed : Bool
  createCbs : List Nat
  showCbs : List Nat
  closeCbs : List Nat
  pending : List (Nat × CbArg)
  invoked : List (Nat × CbArg)
  nBuildModal : Nat
  nBuildOverlay : Nat
  nBuildClose : Nat
deriving DecidableEq, Repr

/-- `observable().trigger(modal)`: schedule every registered callback once,
on a deferred timer, bound to the facade argument. -/
def schedule (cbs : List Nat) (pending : List (Nat × CbArg)) :
    List (Nat × CbArg) :=
  pending ++ cbs.map (fun c => (c, CbArg.facade))

/-- Default overlay base styles (js lines 167-175). -/
def overlayBase : StyleMap :=
  [("display", .str "block"), ("position", .str "fixed"),
   ("top", .str "0px"), ("left", .str "0px"), ("height", .str "100%"),
   ("width", .str "100%"), ("zIndex", .num 10000)]

/-- Default `overlayStyles` (js lines 176-179). -/
def overlayDefault : StyleMap :=
  [("opacity", .num (1/2)), ("background", .str "#000")]

/-- Base styles of the content box (js lines 187-193). -/
def modalBase : StyleMap :=
  [("display", .str "block"), ("position", .str "fixed"),
   ("zIndex", .num 10001), ("left", .str "50%"), ("top", .str "50px")]

/-- Default `modalStyles` (js lines 203-207). -/
def modalDefault : StyleMap :=
  [("backgroundColor", .str "white"), ("padding", .str "20px"),
   ("borderRadius", .str "5px")]

/-- Default `closeStyles` (js lines 218-230). -/
def closeDefault : StyleMap :=
  [("borderRadius", .str "2px"), ("cursor", .str "pointer"),
   ("height", .str "15px"), ("width", .str "15px"),
   ("position", .str "absolute"), ("top", .str "5px"),
   ("right", .str "5px"), ("fontSize", .str "16px"),
   ("textAlign", .str "center"), ("lineHeight", .str "15px"),
   ("background", .str "#CCC")]

/-- The overlay click handler:
`getOption('overlayClose', true) ? close : function(){}`. -/
def overlayHandler (o : Options) : Handler :=
  if getOpt o.overlayClose true then .closeH else .noopH

/-- `buildOverlay` (js lines 164-181): make an element under body, class
it, apply base and user styles, and install the click handler.  If
`overlayStyles` was explicitly supplied, the stylize mutation lands in the
options object itself. -/
def buildOverlay (s : MState) : MState × Nat :=
  let id := s.dom.length
  let d1 := s.dom ++ [mkDiv none]
  let d2 := clazzOp d1 id "pico-overlay"
  let p3 := stylizeOp d2 id overlayBase
  let p4 := stylizeOp p3.1 id (getOpt s.opts.overlayStyles overlayDefault)
  let opts' := if s.opts.overlayStyles.isSome
    then { s.opts with overlayStyles := some p4.2 } else s.opts
  let d5 := onClickOp p4.1 id (overlayHandler s.opts)
  ({ s with dom := d5, opts := opts',
            nBuildOverlay := s.nBuildOverlay + 1 }, id)

/-- `buildModal` (js lines 184-210): make the content box, set its content,
size it with the configured or measured width, centre it with a negative
left margin of half the width, and apply the box styles. -/
def buildModal (env : Env) (s : MState) : MState × Nat :=
  let id := s.dom.length
  let d1 := s.dom ++ [mkDiv none]
  let d2 := clazzOp d1 id "pico-content"
  let p3 := stylizeOp d2 id modalBase
  let d4 := htmlOp p3.1 id s.opts.content
  let w := getOpt s.opts.width (env.widthOf id)
  let p5 := stylizeOp d4 id
    [("width", .px w), ("margin", .margin0001px (-(w / 2)))]
  -- (this literal map is `modalWidthMap w`, defined below with the lemmas)
  let p6 := stylizeOp p5.1 id (getOpt s.opts.modalStyles modalDefault)
  let opts' := if s.opts.modalStyles.isSome
    then { s.opts with modalStyles := some p6.2 } else s.opts
  ({ s with dom := p6.1, opts := opts',
            nBuildModal := s.nBuildModal + 1 }, id)

/-- The memoized `modalElem` builder: build the content box, then
`afterCreateEvent.trigger(iface)`. -/
def forceModal (env : Env) (s : MState) : MState × Nat :=
  match s.modalMemo with
  | some i => (s, i)
  | none =>
    let p := buildModal env s
    ({ p.1 with pending := schedule p.1.createCbs p.1.pending,
                modalMemo := some p.2 }, p.2)

/-- The memoized `shadowElem` builder (`buildOverlay`). -/
def forceShadow (s : MState) : MState × Nat :=
  match s.shadowMemo with
  | some i => (s, i)
  | none =>
    let p := buildOverlay s
    ({ p.1 with shadowMemo := some p.2 }, p.2)

/-- `buildClose` (js lines 213-233): if `closeButton` is truthy, create a
child of the content box (forcing the content box first), fill, class and
style it, and bind its click to `close`; otherwise return `undefined`
without creating anything. -/
def buildClose (env : Env) (s : MState) : MState × Option Nat :=
  if getOpt s.opts.closeButton true then
    let p := forceModal env s
    let s1 := p.1
    let cid := s1.dom.length
    let d1 := s1.dom ++ [mkDiv (some p.2)]
    let d2 := htmlOp d1 cid (some (getOpt s1.opts.closeHtml (.str "&#xD7;")))
    let d3 := clazzOp d2 cid "pico-close"
    let p4 := stylizeOp d3 cid (getOpt s1.opts.closeStyles closeDefault)
    let opts' := if s1.opts.closeStyles.isSome
      then { s1.opts with closeStyles := some p4.2 } else s1.opts
    let d5 := onClickOp p4.1 cid .closeH
    ({ s1 with dom := d5, opts := opts',
               nBuildClose := s1.nBuildClose + 1 }, some cid)
  else
    ({ s with nBuildClose := s.nBuildClose + 1 }, none)

/-- The memoized `closeElem` builder; its memoized result may itself be
`undefined` (`none`). -/
def forceClose (env : Env) (s : MState) : MState × Option Nat :=
  match s.closeMemo with
  | some r => (s, r)
  | none =>
    let p := buildClose env s
    ({ p.1 with closeMemo := some p.2 }, p.2)

/-- The inner `close` function (js lines 265-269): hide overlay and content
box, then trigger the after-close observers.  After `destroy()` the
`shadowElem` variable it reads is `undefined`, so calling it throws. -/
def closeFn (env : Env) (s : MState) : Except JsErr MState :=
  if s.destroyed then .error (.typeErr "shadowElem is not a function")
  else
    let p1 := forceShadow s
    let s2 := { p1.1 with dom := hideOp p1.1.dom p1.2 }
    let p3 := forceModal env s2
    let s4 := { p3.1 with dom := hideOp p3.1.dom p3.2 }
    .ok { s4 with pending := schedule s4.closeCbs s4.pending }

/-- `iface.show` (js lines 302-308): show the overlay, force the close
button, show the content box, trigger the after-show observers. -/
def showFn (env : Env) (s : MState) : Except JsErr MState :=
  if s.destroyed then .error (.typeErr "shadowElem is not a function")
  else
    let p1 := forceShadow s
    let s2 := { p1.1 with dom := showOp p1.1.dom p1.2 }
    let p3 := forceClose env s2
    let p4 := forceModal env p3.1
    let s5 := { p4.1 with dom := showOp p4.1.dom p4.2 }
    .ok { s5 with pending := schedule s5.showCbs s5.pending }

/-- `iface.destroy` (js lines 314-318): force both elements, detach them
from the body, and overwrite the three builder variables with `undefined`
(the `destroyed` flag). -/
def destroyFn (env : Env) (s : MState) : Except JsErr MState :=
  if s.destroyed then .error (.typeErr "modalElem is not a function")
  else
    let p1 := forceModal env s
    let s2 := { p1.1 with dom := removeOp p1.1.dom p1.2 }
    let p3 := forceShadow s2
    let s4 := { p3.1 with dom := removeOp p3.1.dom p3.2 }
    .ok { s4 with destroyed := true }

/-- `iface.modalElem = buildElemAccessor(modalElem)`: the accessor captured
the original memoized builder, so it keeps working after `destroy()`. -/
def modalElemAcc (env : Env) (s : MState) : MState × Nat :=
  forceModal env s

/-- `iface.overalElem = buildElemAccessor(shadowElem)` (the source's
spelling). -/
def overalElemAcc (s : MState) : MState × Nat :=
  forceShadow s

/-- `iface.closeElem = buildElemAccessor(closeElem)`: reads `.elem` of the
builder's result, a `TypeError` when `buildClose` returned `undefined`. -/
def closeElemAcc (env : Env) (s : MState) : Except JsErr (MState × Nat) :=
  let p := forceClose env s
  match p.2 with
  | some i => .ok (p.1, i)
  | none => .error (.typeErr "cannot read property elem of undefined")

/-- The handler list of element `i` as dispatch sees it. -/
def elemHandlers (s : MState) (i : Nat) : List Handler :=
  (s.dom[i]?.map Elem.handlers).getD []

/-- Run a snapshot of click listeners in registration order; the modal's
`close` handler may throw (after destroy). -/
def runHandlers (env : Env) : MState → List Handler → Except JsErr MState
  | s, [] => .ok s
  | s, h :: rest =>
    match h with
    | .closeH =>
      match closeFn env s with
      | .ok s' => runHandlers env s' rest
      | .error e => .error e
    | .noopH => runHandlers env s rest
    | .userH _ => runHandlers env s rest

/-- The public operations on a modal instance, plus the two click events
and the timer step delivering one deferred observer callback. -/
inductive Op
  | opShow
  | opClose
  | opDestroy
  | accModal
  | accOveral
  | accClose
  | watchCreate (cb : Nat)
  | watchShow (cb : Nat)
  | watchClose (cb : Nat)
  | clickOverlay
  | clickCloseBtn
  | runTimer
deriving DecidableEq, Repr

/-- One interaction step with the modal.  Clicks on an element that does
not exist cannot happen; they are no-ops. -/
def step (env : Env) (s : MState) : Op → Except JsErr MState
  | .opShow => showFn env s
  | .opClose => closeFn env s
  | .opDestroy => destroyFn env s
  | .accModal => .ok (modalElemAcc env s).1
  | .accOveral => .ok (overalElemAcc s).1
  | .accClose =>
    match closeElemAcc env s with
    | .ok p => .ok p.1
    | .error e => .error e
  | .watchCreate c => .ok { s with createCbs := s.createCbs ++ [c] }
  | .watchShow c => .ok { s with showCbs := s.showCbs ++ [c] }
  | .watchClose c => .ok { s with closeCbs := s.closeCbs ++ [c] }
  | .clickOverlay =>
    match s.shadowMemo with
    | some i => runHandlers env s (elemHandlers s i)
    | none => .ok s
  | .clickCloseBtn =>
    match s.closeMemo with
    | some (some i) => runHandlers env s (elemHandlers s i)
    | _ => .ok s
  | .runTimer =>
    match s.pending with
    | [] => .ok s
    | p :: rest => .ok { s with pending := rest, invoked := s.invoked ++ [p] }

/-- Run a sequence of interaction steps, stopping at the first JS error. -/
def run (env : Env) : MState → List Op → Except JsErr MState
  | s, [] => .ok s
  | s, op :: ops =>
    match step env s op with
    | .ok s' => run env s' ops
    | .error e => .error e

/-- A freshly constructed modal instance for a configuration. -/
def init (o : Options) : MState :=
  { dom := [], opts := o, modalMemo := none, shadowMemo := none,
    closeMemo := none, destroyed := false, createCbs := [], showCbs := [],
    closeCbs := [], pending := [], invoked := [],
    nBuildModal := 0, nBuildOverlay := 0, nBuildClose := 0 }

/-- The constructor argument: `picoModal` accepts a string, a node, or a
configuration object (js lines 246-250). -/
inductive PicoArg
  | ofStr (v : String)
  | ofNode (n : Nat)
  | ofOptions (o : Options)
deriving DecidableEq, Repr

/-- `picoModal(options)`: a string or node argument is sugar for
`{content: options}`. -/
def picoModal : PicoArg → MState
  | .ofStr v => init { content := some (.str v) }
  | .ofNode n => init { content := some (.node n) }
  | .ofOptions o => init o

/-- The element style map at index `i` (empty when absent). -/
def elemStyle (s : MState) (i : Nat) : StyleMap :=
  (s.dom[i]?.map Elem.style).getD []

/-- The computed `display` style of element `i`. -/
def displayOf (s : MState) (i : Nat) : Option SVal :=
  alookup (elemStyle s i) "display"

/-- Whether an optional style map defines `opacity` (the key whose presence
makes `stylize` write into the caller's object). -/
def mapNoOpacity : Option StyleMap → Bool
  | none => true
  | some m => (alookup m "opacity").isNone

/-- No explicitly supplied style map defines `opacity`. -/
def noOpacityB (o : Options) : Bool :=
  mapNoOpacity o.overlayStyles && mapNoOpacity o.modalStyles &&
    mapNoOpacity o.closeStyles

/-- The option fields other than the three style maps (the only fields the
builders can write back into). -/
def optsCore (o : Options) :
    Option Content × Option ℚ × Option Bool × Option Bool × Option Content :=
  (o.content, o.width, o.overlayClose, o.closeButton, o.closeHtml)

/-- The overlay element exactly as `buildOverlay` leaves it. -/
def overlayElemOf (o : Options) : Elem :=
  { parent := none,
    style := applyMap (applyMap [] (addFilter overlayBase))
      (addFilter (getOpt o.overlayStyles overlayDefault)),
    className := "pico-overlay", content := none,
    handlers := [overlayHandler o], inDoc := true }

/-- The width/centering map `buildModal` applies:
`{width: width + "px", margin: "0 0 0 " + (-(width / 2) + "px")}`. -/
def modalWidthMap (w : ℚ) : StyleMap :=
  [("width", .px w), ("margin", .margin0001px (-(w / 2)))]

/-- The content-box element exactly as `buildModal` leaves it, for the
fresh index `id` it was created at. -/
def modalElemOf (env : Env) (o : Options) (id : Nat) : Elem :=
  { parent := none,
    style := applyMap
      (applyMap (applyMap [] (addFilter modalBase))
        (addFilter (modalWidthMap (getOpt o.width (env.widthOf id)))))
      (addFilter (getOpt o.modalStyles modalDefault)),
    className := "pico-content", content := o.content,
    handlers := [], inDoc := true }

/-- The close-button element exactly as `buildClose` leaves it, child of
the content box `mid`. -/
def closeElemOf (o : Options) (mid : Nat) : Elem :=
  { parent := some mid,
    style := applyMap [] (addFilter (getOpt o.closeStyles closeDefault)),
    className := "pico-close",
    content := some (getOpt o.closeHtml (.str "&#xD7;")),
    handlers := [.closeH], inDoc := true }

/-- Invariant of every reachable modal state: the ghost build counters
track the memo cells, memoized element indices are in range and distinct,
the overlay carries exactly its configured click handler, a disabled
close button never produced an element, and only the close button carries
the `pico-close` class. -/
structure Inv (s : MState) : Prop where
  cntM : s.nBuildModal = if s.modalMemo.isSome then 1 else 0
  cntS : s.nBuildOverlay = if s.shadowMemo.isSome then 1 else 0
  cntC : s.nBuildClose = if s.closeMemo.isSome then 1 else 0
  ltM : ∀ i, s.modalMemo = some i → i < s.dom.length
  ltS : ∀ i, s.shadowMemo = some i → i < s.dom.length
  neMS : ∀ i j, s.modalMemo = some i → s.shadowMemo = some j → i ≠ j
  hS : ∀ i, s.shadowMemo = some i →
    elemHandlers s i = [overlayHandler s.opts]
  disC : getOpt s.opts.closeButton true = false →
    s.closeMemo = none ∨ s.closeMemo = some none
  clsC : ∀ j e, s.dom[j]? = some e → e.className = "pico-close" →
    s.closeMemo = some (some j)
  noneBtn : s.closeMemo = some none →
    getOpt s.opts.closeButton true = false

/-- The state after the body of `iface.show` has shown the overlay
(`shadowElem().show()`). -/
def showS2 (s : MState) : MState :=
  { (forceShadow s).1 with
    dom := showOp (forceShadow s).1.dom (forceShadow s).2 }

/-- The state after `iface.show` has additionally forced the close button
and the content box (`closeElem(); modalElem()`). -/
def showS4 (env : Env) (s : MState) : MState :=
  (forceModal env (forceClose env (showS2 s)).1).1

/-- The content-box index `iface.show` shows. -/
def showMid (env : Env) (s : MState) : Nat :=
  (forceModal env (forceClose env (showS2 s)).1).2

/-- The state after `modalElem().show()`. -/
def showS5 (env : Env) (s : MState) : MState :=
  { showS4 env s with
    dom := showOp (showS4 env s).dom (showMid env s) }

/-- The final state of a successful `iface.show` call, before the deferred
observers run. -/
def showResult (env : Env) (s : MState) : MState :=
  { showS5 env s with
    pending := schedule (showS5 env s).showCbs (showS5 env s).pending }

/-- The state after `close` has hidden the overlay
(`shadowElem().hide()`). -/
def closeS2 (s : MState) : MState :=
  { (forceShadow s).1 with
    dom := hideOp (forceShadow s).1.dom (forceShadow s).2 }

/-- The content-box index `close` hides. -/
def closeMid (env : Env) (s : MState) : Nat :=
  (forceModal env (closeS2 s)).2

/-- The state after `modalElem().hide()`. -/
def closeS4 (env : Env) (s : MState) : MState :=
  { (forceModal env (closeS2 s)).1 with
    dom := hideOp (forceModal env (closeS2 s)).1.dom (closeMid env s) }

/-- The final state of a successful `close` call, before the deferred
observers run. -/
def closeResult (env : Env) (s : MState) : MState :=
  { closeS4 env s with
    pending := schedule (closeS4 env s).closeCbs (closeS4 env s).pending }

/-- A fixed rendering environment for concrete executions: every element
measures 100 pixels wide. -/
def envW : Env := ⟨fun _ => 100⟩

/-- Extract the state of a successful run (used to name concrete states
in closed statements). -/
def okOr (r : Except JsErr MState) (d : MState) : MState :=
  match r with
  | .ok s => s
  | .error _ => d

/-! ## Lemmas about the document store -/

theorem upd_length (d : Dom) (i : Nat) (f : Elem → Elem) :
    (upd d i f).length = d.length := by
  induction d generalizing i with
  | nil => rfl
  | cons e es ih =>
    cases i with
    | zero => simp [upd]
    | succ i => simp [upd, ih]

theorem getElem?_upd (d : Dom) (i : Nat) (f : Elem → Elem) (j : Nat) :
    (upd d i f)[j]? = if j = i then d[j]?.map f else d[j]? := by
  induction d generalizing i j with
  | nil => simp [upd]
  | cons e es ih =>
    cases i with
    | zero =>
      cases j with
      | zero => simp [upd]
      | succ j => simp [upd]
    | succ i =>
      cases j with
      | zero => simp [upd]
      | succ j => simp [upd, ih]

theorem getElem?_snoc (d : Dom) (e : Elem) (j : Nat) :
    (d ++ [e])[j]? =
      if j < d.length then d[j]?
      else if j = d.length then some e else none := by
  induction d generalizing j with
  | nil =>
    cases j with
    | zero => simp
    | succ j => simp
  | cons a as ih =>
    cases j with
    | zero => simp
    | succ j => simpa [Nat.succ_lt_succ_iff] using ih j

theorem getElem?_of_lt (d : Dom) (j : Nat) (h : j < d.length) :
    ∃ e, d[j]? = some e :=
  ⟨d[j], List.getElem?_eq_getElem h⟩

/-! ## Lemmas about style maps -/

theorem alookup_aset (m : StyleMap) (k : String) (v : SVal) (k' : String) :
    alookup (aset m k v) k' = if k' = k then some v else alookup m k' := by
  induction m with
  | nil =>
    by_cases h : k' = k
    · subst h; simp [aset, alookup]
    · have h' : ¬ k = k' := fun hh => h hh.symm
      simp [aset, alookup, h, h']
  | cons p rest ih =>
    obtain ⟨pk, pv⟩ := p
    by_cases hpk : pk = k
    · subst hpk
      by_cases h2 : k' = pk
      · subst h2; simp [aset, alookup]
      · have h2' : ¬ pk = k' := fun hh => h2 hh.symm
        simp [aset, alookup, h2, h2']
    · by_cases h2 : pk = k'
      · subst h2
        simp [aset, alookup, hpk]
      · simp [aset, alookup, hpk, h2, ih]

theorem alookup_applyMap_nokey (st m : StyleMap) (k : String)
    (h : alookup m k = none) : alookup (applyMap st m) k = alookup st k := by
  induction m generalizing st with
  | nil => rfl
  | cons p rest ih =>
    obtain ⟨pk, pv⟩ := p
    have hpk : ¬ pk = k := by
      intro hh
      rw [alookup, if_pos hh] at h
      exact Option.noConfusion h
    have hrest : alookup rest k = none := by
      simpa only [alookup, if_neg hpk] using h
    have hstep : applyMap st ((pk, pv) :: rest) = applyMap (aset st pk pv) rest := rfl
    rw [hstep, ih _ hrest, alookup_aset, if_neg (fun hh => hpk hh.symm)]

theorem alookup_addFilter (m : StyleMap) (k : String) (h : ¬ k = "filter") :
    alookup (addFilter m) k = alookup m k := by
  unfold addFilter
  cases alookup m "opacity" with
  | none => rfl
  | some v => simp [alookup_aset, h]

theorem addFilter_of_noOpacity (m : StyleMap)
    (h : alookup m "opacity" = none) : addFilter m = m := by
  unfold addFilter
  rw [h]

theorem empty_append_str (s : String) : "" ++ s = s := by
  cases s with
  | mk data => rfl

/-! ## What each builder constructs -/

@[simp] theorem buildOverlay_ret (s : MState) :
    (buildOverlay s).2 = s.dom.length := rfl

@[simp] theorem buildOverlay_modalMemo (s : MState) :
    (buildOverlay s).1.modalMemo = s.modalMemo := rfl

@[simp] theorem buildOverlay_shadowMemo (s : MState) :
    (buildOverlay s).1.shadowMemo = s.shadowMemo := rfl

@[simp] theorem buildOverlay_closeMemo (s : MState) :
    (buildOverlay s).1.closeMemo = s.closeMemo := rfl

@[simp] theorem buildOverlay_destroyed (s : MState) :
    (buildOverlay s).1.destroyed = s.destroyed := rfl

@[simp] theorem buildOverlay_createCbs (s : MState) :
    (buildOverlay s).1.createCbs = s.createCbs := rfl

@[simp] theorem buildOverlay_showCbs (s : MState) :
    (buildOverlay s).1.showCbs = s.showCbs := rfl

@[simp] theorem buildOverlay_closeCbs (s : MState) :
    (buildOverlay s).1.closeCbs = s.closeCbs := rfl

@[simp] theorem buildOverlay_pending (s : MState) :
    (buildOverlay s).1.pending = s.pending := rfl

@[simp] theorem buildOverlay_invoked (s : MState) :
    (buildOverlay s).1.invoked = s.invoked := rfl

@[simp] theorem buildOverlay_nBuildModal (s : MState) :
    (buildOverlay s).1.nBuildModal = s.nBuildModal := rfl

@[simp] theorem buildOverlay_nBuildOverlay (s : MState) :
    (buildOverlay s).1.nBuildOverlay = s.nBuildOverlay + 1 := rfl

@[simp] theorem buildOverlay_nBuildClose (s : MState) :
    (buildOverlay s).1.nBuildClose = s.nBuildClose := rfl

theorem buildOverlay_opts (s : MState) :
    (buildOverlay s).1.opts =
      if s.opts.overlayStyles.isSome
      then { s.opts with
             overlayStyles :=
               some (addFilter (getOpt s.opts.overlayStyles overlayDefault)) }
      else s.opts := rfl

@[simp] theorem buildOverlay_len (s : MState) :
    (buildOverlay s).1.dom.length = s.dom.length + 1 := by
  simp [buildOverlay, onClickOp, stylizeOp, clazzOp, upd_length]

theorem buildOverlay_dom (s : MState) (j : Nat) :
    (buildOverlay s).1.dom[j]? =
      if j < s.dom.length then s.dom[j]?
      else if j = s.dom.length then some (overlayElemOf s.opts)
      else none := by
  by_cases h1 : j < s.dom.length
  · have hne : ¬ j = s.dom.length := Nat.ne_of_lt h1
    simp [buildOverlay, onClickOp, stylizeOp, clazzOp, getElem?_upd,
      getElem?_snoc, hne, h1]
  · by_cases h2 : j = s.dom.length
    · subst h2
      simp [buildOverlay, onClickOp, stylizeOp, clazzOp, getElem?_upd,
        getElem?_snoc, h1, overlayElemOf, mkDiv, empty_append_str]
    · simp [buildOverlay, onClickOp, stylizeOp, clazzOp, getElem?_upd,
        getElem?_snoc, h1, h2]

theorem buildOverlay_optsCore (s : MState) :
    optsCore (buildOverlay s).1.opts = optsCore s.opts := by
  rw [buildOverlay_opts]
  by_cases h : s.opts.overlayStyles.isSome <;> simp [h, optsCore]

theorem buildOverlay_opts_pure (s : MState) (h : noOpacityB s.opts = true) :
    (buildOverlay s).1.opts = s.opts := by
  rw [buildOverlay_opts]
  cases hov : s.opts.overlayStyles with
  | none => simp [hov]
  | some m =>
    have hm : alookup m "opacity" = none := by
      have h1 : mapNoOpacity s.opts.overlayStyles = true := by
        simp only [noOpacityB, Bool.and_eq_true] at h
        exact h.1.1
      rw [hov] at h1
      simpa [mapNoOpacity, Option.isNone_iff_eq_none] using h1
    simp only [hov, Option.isSome_some, if_pos, getOpt,
      addFilter_of_noOpacity m hm]
    rw [← hov]

@[simp] theorem buildModal_ret (env : Env) (s : MState) :
    (buildModal env s).2 = s.dom.length := rfl

@[simp] theorem buildModal_modalMemo (env : Env) (s : MState) :
    (buildModal env s).1.modalMemo = s.modalMemo := rfl

@[simp] theorem buildModal_shadowMemo (env : Env) (s : MState) :
    (buildModal env s).1.shadowMemo = s.shadowMemo := rfl

@[simp] theorem buildModal_closeMemo (env : Env) (s : MState) :
    (buildModal env s).1.closeMemo = s.closeMemo := rfl

@[simp] theorem buildModal_destroyed (env : Env) (s : MState) :
    (buildModal env s).1.destroyed = s.destroyed := rfl

@[simp] theorem buildModal_createCbs (env : Env) (s : MState) :
    (buildModal env s).1.createCbs = s.createCbs := rfl

@[simp] theorem buildModal_showCbs (env : Env) (s : MState) :
    (buildModal env s).1.showCbs = s.showCbs := rfl

@[simp] theorem buildModal_closeCbs (env : Env) (s : MState) :
    (buildModal env s).1.closeCbs = s.closeCbs := rfl

@[simp] theorem buildModal_pending (env : Env) (s : MState) :
    (buildModal env s).1.pending = s.pending := rfl

@[simp] theorem buildModal_invoked (env : Env) (s : MState) :
    (buildModal env s).1.invoked = s.invoked := rfl

@[simp] theorem buildModal_nBuildModal (env : Env) (s : MState) :
    (buildModal env s).1.nBuildModal = s.nBuildModal + 1 := rfl

@[simp] theorem buildModal_nBuildOverlay (env : Env) (s : MState) :
    (buildModal env s).1.nBuildOverlay = s.nBuildOverlay := rfl

@[simp] theorem buildModal_nBuildClose (env : Env) (s : MState) :
    (buildModal env s).1.nBuildClose = s.nBuildClose := rfl

theorem buildModal_opts (env : Env) (s : MState) :
    (buildModal env s).1.opts =
      if s.opts.modalStyles.isSome
      then { s.opts with
             modalStyles :=
               some (addFilter (getOpt s.opts.modalStyles modalDefault)) }
      else s.opts := rfl

@[simp] theorem buildModal_len (env : Env) (s : MState) :
    (buildModal env s).1.dom.length = s.dom.length + 1 := by
  simp [buildModal, onClickOp, stylizeOp, clazzOp, htmlOp, upd_length]

theorem buildModal_dom (env : Env) (s : MState) (j : Nat) :
    (buildModal env s).1.dom[j]? =
      if j < s.dom.length then s.dom[j]?
      else if j = s.dom.length
      then some (modalElemOf env s.opts s.dom.length)
      else none := by
  by_cases h1 : j < s.dom.length
  · have hne : ¬ j = s.dom.length := Nat.ne_of_lt h1
    simp [buildModal, onClickOp, stylizeOp, clazzOp, htmlOp, getElem?_upd,
      getElem?_snoc, hne, h1]
  · by_cases h2 : j = s.dom.length
    · subst h2
      simp [buildModal, onClickOp, stylizeOp, clazzOp, htmlOp, getElem?_upd,
        getElem?_snoc, h1, modalElemOf, modalWidthMap, mkDiv,
        empty_append_str]
    · simp [buildModal, onClickOp, stylizeOp, clazzOp, htmlOp, getElem?_upd,
        getElem?_snoc, h1, h2]

theorem buildModal_optsCore (env : Env) (s : MState) :
    optsCore (buildModal env s).1.opts = optsCore s.opts := by
  rw [buildModal_opts]
  by_cases h : s.opts.modalStyles.isSome <;> simp [h, optsCore]

theorem buildModal_opts_pure (env : Env) (s : MState)
    (h : noOpacityB s.opts = true) :
    (buildModal env s).1.opts = s.opts := by
  rw [buildModal_opts]
  cases hmo : s.opts.modalStyles with
  | none => simp [hmo]
  | some m =>
    have hm : alookup m "opacity" = none := by
      have h1 : mapNoOpacity s.opts.modalStyles = true := by
        simp only [noOpacityB, Bool.and_eq_true] at h
        exact h.1.2
      rw [hmo] at h1
      simpa [mapNoOpacity, Option.isNone_iff_eq_none] using h1
    simp only [hmo, Option.isSome_some, if_pos, getOpt,
      addFilter_of_noOpacity m hm]
    rw [← hmo]

/-! ## The memoized builders -/

theorem forceShadow_of_some (s : MState) (i : Nat)
    (h : s.shadowMemo = some i) : forceShadow s = (s, i) := by
  simp [forceShadow, h]

theorem forceShadow_of_none (s : MState) (h : s.shadowMemo = none) :
    forceShadow s =
      ({ (buildOverlay s).1 with shadowMemo := some (buildOverlay s).2 },
        (buildOverlay s).2) := by
  simp [forceShadow, h]

theorem forceModal_of_some (env : Env) (s : MState) (i : Nat)
    (h : s.modalMemo = some i) : forceModal env s = (s, i) := by
  simp [forceModal, h]

theorem forceModal_of_none (env : Env) (s : MState) (h : s.modalMemo = none) :
    forceModal env s =
      ({ (buildModal env s).1 with
          pending := schedule s.createCbs s.pending,
          modalMemo := some (buildModal env s).2 },
        (buildModal env s).2) := by
  simp [forceModal, h]

theorem forceClose_of_some (env : Env) (s : MState) (r : Option Nat)
    (h : s.closeMemo = some r) : forceClose env s = (s, r) := by
  simp [forceClose, h]

theorem forceClose_of_none (env : Env) (s : MState) (h : s.closeMemo = none) :
    forceClose env s =
      ({ (buildClose env s).1 with closeMemo := some (buildClose env s).2 },
        (buildClose env s).2) := by
  simp [forceClose, h]

theorem buildClose_of_false (env : Env) (s : MState)
    (hb : getOpt s.opts.closeButton true = false) :
    buildClose env s = ({ s with nBuildClose := s.nBuildClose + 1 }, none) := by
  simp [buildClose, hb]

theorem forceShadow_optsCore (s : MState) :
    optsCore (forceShadow s).1.opts = optsCore s.opts := by
  cases hm : s.shadowMemo with
  | some i => rw [forceShadow_of_some s i hm]
  | none =>
    rw [forceShadow_of_none s hm]
    simpa using buildOverlay_optsCore s

theorem forceShadow_opts_pure (s : MState) (h : noOpacityB s.opts = true) :
    (forceShadow s).1.opts = s.opts := by
  cases hm : s.shadowMemo with
  | some i => rw [forceShadow_of_some s i hm]
  | none =>
    rw [forceShadow_of_none s hm]
    simpa using buildOverlay_opts_pure s h

theorem forceModal_optsCore (env : Env) (s : MState) :
    optsCore (forceModal env s).1.opts = optsCore s.opts := by
  cases hm : s.modalMemo with
  | some i => rw [forceModal_of_some env s i hm]
  | none =>
    rw [forceModal_of_none env s hm]
    simpa using buildModal_optsCore env s

theorem forceModal_opts_pure (env : Env) (s : MState)
    (h : noOpacityB s.opts = true) :
    (forceModal env s).1.opts = s.opts := by
  cases hm : s.modalMemo with
  | some i => rw [forceModal_of_some env s i hm]
  | none =>
    rw [forceModal_of_none env s hm]
    simpa using buildModal_opts_pure env s h

theorem buildClose_ret_of_true (env : Env) (s : MState)
    (hb : getOpt s.opts.closeButton true = true) :
    (buildClose env s).2 = some ((forceModal env s).1.dom.length) := by
  simp [buildClose, hb]

theorem buildClose_modalMemo_of_true (env : Env) (s : MState)
    (hb : getOpt s.opts.closeButton true = true) :
    (buildClose env s).1.modalMemo = (forceModal env s).1.modalMemo := by
  simp [buildClose, hb]

theorem buildClose_shadowMemo_of_true (env : Env) (s : MState)
    (hb : getOpt s.opts.closeButton true = true) :
    (buildClose env s).1.shadowMemo = (forceModal env s).1.shadowMemo := by
  simp [buildClose, hb]

theorem buildClose_closeMemo_of_true (env : Env) (s : MState)
    (hb : getOpt s.opts.closeButton true = true) :
    (buildClose env s).1.closeMemo = (forceModal env s).1.closeMemo := by
  simp [buildClose, hb]

theorem buildClose_destroyed_of_true (env : Env) (s : MState)
    (hb : getOpt s.opts.closeButton true = true) :
    (buildClose env s).1.destroyed = (forceModal env s).1.destroyed := by
  simp [buildClose, hb]

theorem buildClose_createCbs_of_true (env : Env) (s : MState)
    (hb : getOpt s.opts.closeButton true = true) :
    (buildClose env s).1.createCbs = (forceModal env s).1.createCbs := by
  simp [buildClose, hb]

theorem buildClose_showCbs_of_true (env : Env) (s : MState)
    (hb : getOpt s.opts.closeButton true = true) :
    (buildClose env s).1.showCbs = (forceModal env s).1.showCbs := by
  simp [buildClose, hb]

theorem buildClose_closeCbs_of_true (env : Env) (s : MState)
    (hb : getOpt s.opts.closeButton true = true) :
    (buildClose env s).1.closeCbs = (forceModal env s).1.closeCbs := by
  simp [buildClose, hb]

theorem buildClose_pending_of_true (env : Env) (s : MState)
    (hb : getOpt s.opts.closeButton true = true) :
    (buildClose env s).1.pending = (forceModal env s).1.pending := by
  simp [buildClose, hb]

theorem buildClose_invoked_of_true (env : Env) (s : MState)
    (hb : getOpt s.opts.closeButton true = true) :
    (buildClose env s).1.invoked = (forceModal env s).1.invoked := by
  simp [buildClose, hb]

theorem buildClose_nBuildModal_of_true (env : Env) (s : MState)
    (hb : getOpt s.opts.closeButton true = true) :
    (buildClose env s).1.nBuildModal = (forceModal env s).1.nBuildModal := by
  simp [buildClose, hb]

theorem buildClose_nBuildOverlay_of_true (env : Env) (s : MState)
    (hb : getOpt s.opts.closeButton true = true) :
    (buildClose env s).1.nBuildOverlay = (forceModal env s).1.nBuildOverlay := by
  simp [buildClose, hb]

theorem buildClose_nBuildClose_of_true (env : Env) (s : MState)
    (hb : getOpt s.opts.closeButton true = true) :
    (buildClose env s).1.nBuildClose =
      (forceModal env s).1.nBuildClose + 1 := by
  simp [buildClose, hb]

theorem buildClose_len_of_true (env : Env) (s : MState)
    (hb : getOpt s.opts.closeButton true = true) :
    (buildClose env s).1.dom.length =
      (forceModal env s).1.dom.length + 1 := by
  simp [buildClose, hb, onClickOp, stylizeOp, clazzOp, htmlOp, upd_length]

theorem buildClose_dom_of_true (env : Env) (s : MState)
    (hb : getOpt s.opts.closeButton true = true) (j : Nat) :
    (buildClose env s).1.dom[j]? =
      if j < (forceModal env s).1.dom.length
      then (forceModal env s).1.dom[j]?
      else if j = (forceModal env s).1.dom.length
      then some (closeElemOf (forceModal env s).1.opts (forceModal env s).2)
      else none := by
  by_cases h1 : j < (forceModal env s).1.dom.length
  · have hne : ¬ j = (forceModal env s).1.dom.length := Nat.ne_of_lt h1
    simp [buildClose, hb, onClickOp, stylizeOp, clazzOp, htmlOp,
      getElem?_upd, getElem?_snoc, hne, h1]
  · by_cases h2 : j = (forceModal env s).1.dom.length
    · subst h2
      simp [buildClose, hb, onClickOp, stylizeOp, clazzOp, htmlOp,
        getElem?_upd, getElem?_snoc, h1, closeElemOf, mkDiv,
        empty_append_str]
    · simp [buildClose, hb, onClickOp, stylizeOp, clazzOp, htmlOp,
        getElem?_upd, getElem?_snoc, h1, h2]

theorem buildClose_opts_of_true (env : Env) (s : MState)
    (hb : getOpt s.opts.closeButton true = true) :
    (buildClose env s).1.opts =
      if (forceModal env s).1.opts.closeStyles.isSome
      then { (forceModal env s).1.opts with
             closeStyles :=
               some (addFilter
                 (getOpt (forceModal env s).1.opts.closeStyles closeDefault)) }
      else (forceModal env s).1.opts := by
  simp [buildClose, stylizeOp, hb]

theorem optsCore_setCloseStyles (o : Options) (x : Option StyleMap) :
    optsCore { o with closeStyles := x } = optsCore o := rfl

theorem buildClose_optsCore (env : Env) (s : MState) :
    optsCore (buildClose env s).1.opts = optsCore s.opts := by
  by_cases hb : getOpt s.opts.closeButton true = true
  · rw [buildClose_opts_of_true env s hb]
    by_cases h : (forceModal env s).1.opts.closeStyles.isSome
    · rw [if_pos h, optsCore_setCloseStyles, forceModal_optsCore]
    · rw [if_neg h, forceModal_optsCore]
  · have hb' : getOpt s.opts.closeButton true = false := by
      revert hb
      cases getOpt s.opts.closeButton true <;> simp
    rw [buildClose_of_false env s hb']

theorem buildClose_opts_pure (env : Env) (s : MState)
    (h : noOpacityB s.opts = true) :
    (buildClose env s).1.opts = s.opts := by
  by_cases hb : getOpt s.opts.closeButton true = true
  · rw [buildClose_opts_of_true env s hb, forceModal_opts_pure env s h]
    cases hcl : s.opts.closeStyles with
    | none => simp [hcl]
    | some m =>
      have hm : alookup m "opacity" = none := by
        have h1 : mapNoOpacity s.opts.closeStyles = true := by
          simp only [noOpacityB, Bool.and_eq_true] at h
          exact h.2
        rw [hcl] at h1
        simpa [mapNoOpacity, Option.isNone_iff_eq_none] using h1
      simp only [hcl, Option.isSome_some, if_pos, getOpt,
        addFilter_of_noOpacity m hm]
      rw [← hcl]
  · have hb' : getOpt s.opts.closeButton true = false := by
      revert hb
      cases getOpt s.opts.closeButton true <;> simp
    rw [buildClose_of_false env s hb']

theorem forceClose_optsCore (env : Env) (s : MState) :
    optsCore (forceClose env s).1.opts = optsCore s.opts := by
  cases hm : s.closeMemo with
  | some r => rw [forceClose_of_some env s r hm]
  | none =>
    rw [forceClose_of_none env s hm]
    simpa using buildClose_optsCore env s

theorem forceClose_opts_pure (env : Env) (s : MState)
    (h : noOpacityB s.opts = true) :
    (forceClose env s).1.opts = s.opts := by
  cases hm : s.closeMemo with
  | some r => rw [forceClose_of_some env s r hm]
  | none =>
    rw [forceClose_of_none env s hm]
    simpa using buildClose_opts_pure env s h

@[simp] theorem forceShadow_shadowMemo (s : MState) :
    (forceShadow s).1.shadowMemo = some (forceShadow s).2 := by
  cases hm : s.shadowMemo with
  | some i => rw [forceShadow_of_some s i hm]; exact hm
  | none => rw [forceShadow_of_none s hm]

@[simp] theorem forceShadow_modalMemo (s : MState) :
    (forceShadow s).1.modalMemo = s.modalMemo := by
  cases hm : s.shadowMemo with
  | some i => rw [forceShadow_of_some s i hm]
  | none => rw [forceShadow_of_none s hm]; simp

@[simp] theorem forceShadow_closeMemo (s : MState) :
    (forceShadow s).1.closeMemo = s.closeMemo := by
  cases hm : s.shadowMemo with
  | some i => rw [forceShadow_of_some s i hm]
  | none => rw [forceShadow_of_none s hm]; simp

@[simp] theorem forceShadow_destroyed (s : MState) :
    (forceShadow s).1.destroyed = s.destroyed := by
  cases hm : s.shadowMemo with
  | some i => rw [forceShadow_of_some s i hm]
  | none => rw [forceShadow_of_none s hm]; simp

@[simp] theorem forceShadow_createCbs (s : MState) :
    (forceShadow s).1.createCbs = s.createCbs := by
  cases hm : s.shadowMemo with
  | some i => rw [forceShadow_of_some s i hm]
  | none => rw [forceShadow_of_none s hm]; simp

@[simp] theorem forceShadow_showCbs (s : MState) :
    (forceShadow s).1.showCbs = s.showCbs := by
  cases hm : s.shadowMemo with
  | some i => rw [forceShadow_of_some s i hm]
  | none => rw [forceShadow_of_none s hm]; simp

@[simp] theorem forceShadow_closeCbs (s : MState) :
    (forceShadow s).1.closeCbs = s.closeCbs := by
  cases hm : s.shadowMemo with
  | some i => rw [forceShadow_of_some s i hm]
  | none => rw [forceShadow_of_none s hm]; simp

@[simp] theorem forceShadow_pending (s : MState) :
    (forceShadow s).1.pending = s.pending := by
  cases hm : s.shadowMemo with
  | some i => rw [forceShadow_of_some s i hm]
  | none => rw [forceShadow_of_none s hm]; simp

@[simp] theorem forceShadow_invoked (s : MState) :
    (forceShadow s).1.invoked = s.invoked := by
  cases hm : s.shadowMemo with
  | some i => rw [forceShadow_of_some s i hm]
  | none => rw [forceShadow_of_none s hm]; simp

@[simp] theorem forceShadow_nBuildModal (s : MState) :
    (forceShadow s).1.nBuildModal = s.nBuildModal := by
  cases hm : s.shadowMemo with
  | some i => rw [forceShadow_of_some s i hm]
  | none => rw [forceShadow_of_none s hm]; simp

@[simp] theorem forceShadow_nBuildClose (s : MState) :
    (forceShadow s).1.nBuildClose = s.nBuildClose := by
  cases hm : s.shadowMemo with
  | some i => rw [forceShadow_of_some s i hm]
  | none => rw [forceShadow_of_none s hm]; simp

theorem forceShadow_nBuildOverlay (s : MState) :
    (forceShadow s).1.nBuildOverlay =
      if s.shadowMemo.isSome then s.nBuildOverlay else s.nBuildOverlay + 1 := by
  cases hm : s.shadowMemo with
  | some i => rw [forceShadow_of_some s i hm]; simp
  | none => rw [forceShadow_of_none s hm]; simp

theorem forceShadow_len (s : MState) :
    (forceShadow s).1.dom.length =
      if s.shadowMemo.isSome then s.dom.length else s.dom.length + 1 := by
  cases hm : s.shadowMemo with
  | some i => rw [forceShadow_of_some s i hm]; simp
  | none => rw [forceShadow_of_none s hm]; simp

theorem forceShadow_len_ge (s : MState) :
    s.dom.length ≤ (forceShadow s).1.dom.length := by
  rw [forceShadow_len]
  by_cases h : s.shadowMemo.isSome <;> simp [h]

theorem forceShadow_frame (s : MState) (j : Nat) (h : j < s.dom.length) :
    (forceShadow s).1.dom[j]? = s.dom[j]? := by
  cases hm : s.shadowMemo with
  | some i => rw [forceShadow_of_some s i hm]
  | none =>
    rw [forceShadow_of_none s hm]
    have := buildOverlay_dom s j
    simpa [h] using this

theorem forceShadow_ret_lt (s : MState)
    (hlt : ∀ i, s.shadowMemo = some i → i < s.dom.length) :
    (forceShadow s).2 < (forceShadow s).1.dom.length := by
  cases hm : s.shadowMemo with
  | some i =>
    rw [forceShadow_of_some s i hm]
    exact hlt i hm
  | none =>
    rw [forceShadow_of_none s hm]
    simp

@[simp] theorem forceModal_modalMemo (env : Env) (s : MState) :
    (forceModal env s).1.modalMemo = some (forceModal env s).2 := by
  cases hm : s.modalMemo with
  | some i => rw [forceModal_of_some env s i hm]; exact hm
  | none => rw [forceModal_of_none env s hm]

@[simp] theorem forceModal_shadowMemo (env : Env) (s : MState) :
    (forceModal env s).1.shadowMemo = s.shadowMemo := by
  cases hm : s.modalMemo with
  | some i => rw [forceModal_of_some env s i hm]
  | none => rw [forceModal_of_none env s hm]; simp

@[simp] theorem forceModal_closeMemo (env : Env) (s : MState) :
    (forceModal env s).1.closeMemo = s.closeMemo := by
  cases hm : s.modalMemo with
  | some i => rw [forceModal_of_some env s i hm]
  | none => rw [forceModal_of_none env s hm]; simp

@[simp] theorem forceModal_destroyed (env : Env) (s : MState) :
    (forceModal env s).1.destroyed = s.destroyed := by
  cases hm : s.modalMemo with
  | some i => rw [forceModal_of_some env s i hm]
  | none => rw [forceModal_of_none env s hm]; simp

@[simp] theorem forceModal_createCbs (env : Env) (s : MState) :
    (forceModal env s).1.createCbs = s.createCbs := by
  cases hm : s.modalMemo with
  | some i => rw [forceModal_of_some env s i hm]
  | none => rw [forceModal_of_none env s hm]; simp

@[simp] theorem forceModal_showCbs (env : Env) (s : MState) :
    (forceModal env s).1.showCbs = s.showCbs := by
  cases hm : s.modalMemo with
  | some i => rw [forceModal_of_some env s i hm]
  | none => rw [forceModal_of_none env s hm]; simp

@[simp] theorem forceModal_closeCbs (env : Env) (s : MState) :
    (forceModal env s).1.closeCbs = s.closeCbs := by
  cases hm : s.modalMemo with
  | some i => rw [forceModal_of_some env s i hm]
  | none => rw [forceModal_of_none env s hm]; simp

@[simp] theorem forceModal_invoked (env : Env) (s : MState) :
    (forceModal env s).1.invoked = s.invoked := by
  cases hm : s.modalMemo with
  | some i => rw [forceModal_of_some env s i hm]
  | none => rw [forceModal_of_none env s hm]; simp

@[simp] theorem forceModal_nBuildOverlay (env : Env) (s : MState) :
    (forceModal env s).1.nBuildOverlay = s.nBuildOverlay := by
  cases hm : s.modalMemo with
  | some i => rw [forceModal_of_some env s i hm]
  | none => rw [forceModal_of_none env s hm]; simp

@[simp] theorem forceModal_nBuildClose (env : Env) (s : MState) :
    (forceModal env s).1.nBuildClose = s.nBuildClose := by
  cases hm : s.modalMemo with
  | some i => rw [forceModal_of_some env s i hm]
  | none => rw [forceModal_of_none env s hm]; simp

theorem forceModal_nBuildModal (env : Env) (s : MState) :
    (forceModal env s).1.nBuildModal =
      if s.modalMemo.isSome then s.nBuildModal else s.nBuildModal + 1 := by
  cases hm : s.modalMemo with
  | some i => rw [forceModal_of_some env s i hm]; simp
  | none => rw [forceModal_of_none env s hm]; simp

theorem forceModal_pending (env : Env) (s : MState) :
    (forceModal env s).1.pending =
      if s.modalMemo.isSome then s.pending
      else schedule s.createCbs s.pending := by
  cases hm : s.modalMemo with
  | some i => rw [forceModal_of_some env s i hm]; simp
  | none => rw [forceModal_of_none env s hm]; simp

theorem forceModal_len (env : Env) (s : MState) :
    (forceModal env s).1.dom.length =
      if s.modalMemo.isSome then s.dom.length else s.dom.length + 1 := by
  cases hm : s.modalMemo with
  | some i => rw [forceModal_of_some env s i hm]; simp
  | none => rw [forceModal_of_none env s hm]; simp

theorem forceModal_len_ge (env : Env) (s : MState) :
    s.dom.length ≤ (forceModal env s).1.dom.length := by
  rw [forceModal_len]
  by_cases h : s.modalMemo.isSome <;> simp [h]

theorem forceModal_frame (env : Env) (s : MState) (j : Nat)
    (h : j < s.dom.length) :
    (forceModal env s).1.dom[j]? = s.dom[j]? := by
  cases hm : s.modalMemo with
  | some i => rw [forceModal_of_some env s i hm]
  | none =>
    rw [forceModal_of_none env s hm]
    have := buildModal_dom env s j
    simpa [h] using this

theorem forceModal_ret_lt (env : Env) (s : MState)
    (hlt : ∀ i, s.modalMemo = some i → i < s.dom.length) :
    (forceModal env s).2 < (forceModal env s).1.dom.length := by
  cases hm : s.modalMemo with
  | some i =>
    rw [forceModal_of_some env s i hm]
    exact hlt i hm
  | none =>
    rw [forceModal_of_none env s hm]
    simp

@[simp] theorem forceClose_closeMemo (env : Env) (s : MState) :
    (forceClose env s).1.closeMemo = some (forceClose env s).2 := by
  cases hm : s.closeMemo with
  | some r => rw [forceClose_of_some env s r hm]; exact hm
  | none => rw [forceClose_of_none env s hm]

@[simp] theorem forceClose_shadowMemo (env : Env) (s : MState) :
    (forceClose env s).1.shadowMemo = s.shadowMemo := by
  cases hm : s.closeMemo with
  | some r => rw [forceClose_of_some env s r hm]
  | none =>
    rw [forceClose_of_none env s hm]
    cases hb : getOpt s.opts.closeButton true with
    | false => rw [buildClose_of_false env s hb]
    | true =>
      simp [buildClose_shadowMemo_of_true env s hb]

@[simp] theorem forceClose_destroyed (env : Env) (s : MState) :
    (forceClose env s).1.destroyed = s.destroyed := by
  cases hm : s.closeMemo with
  | some r => rw [forceClose_of_some env s r hm]
  | none =>
    rw [forceClose_of_none env s hm]
    cases hb : getOpt s.opts.closeButton true with
    | false => rw [buildClose_of_false env s hb]
    | true =>
      simp [buildClose_destroyed_of_true env s hb]

@[simp] theorem forceClose_createCbs (env : Env) (s : MState) :
    (forceClose env s).1.createCbs = s.createCbs := by
  cases hm : s.closeMemo with
  | some r => rw [forceClose_of_some env s r hm]
  | none =>
    rw [forceClose_of_none env s hm]
    cases hb : getOpt s.opts.closeButton true with
    | false => rw [buildClose_of_false env s hb]
    | true =>
      simp [buildClose_createCbs_of_true env s hb]

@[simp] theorem forceClose_showCbs (env : Env) (s : MState) :
    (forceClose env s).1.showCbs = s.showCbs := by
  cases hm : s.closeMemo with
  | some r => rw [forceClose_of_some env s r hm]
  | none =>
    rw [forceClose_of_none env s hm]
    cases hb : getOpt s.opts.closeButton true with
    | false => rw [buildClose_of_false env s hb]
    | true =>
      simp [buildClose_showCbs_of_true env s hb]

@[simp] theorem forceClose_closeCbs (env : Env) (s : MState) :
    (forceClose env s).1.closeCbs = s.closeCbs := by
  cases hm : s.closeMemo with
  | some r => rw [forceClose_of_some env s r hm]
  | none =>
    rw [forceClose_of_none env s hm]
    cases hb : getOpt s.opts.closeButton true with
    | false => rw [buildClose_of_false env s hb]
    | true =>
      simp [buildClose_closeCbs_of_true env s hb]

@[simp] theorem forceClose_invoked (env : Env) (s : MState) :
    (forceClose env s).1.invoked = s.invoked := by
  cases hm : s.closeMemo with
  | some r => rw [forceClose_of_some env s r hm]
  | none =>
    rw [forceClose_of_none env s hm]
    cases hb : getOpt s.opts.closeButton true with
    | false => rw [buildClose_of_false env s hb]
    | true =>
      simp [buildClose_invoked_of_true env s hb]

theorem forceClose_modalMemo (env : Env) (s : MState) :
    (forceClose env s).1.modalMemo =
      if s.closeMemo.isSome then s.modalMemo
      else if getOpt s.opts.closeButton true then some (forceModal env s).2
      else s.modalMemo := by
  cases hm : s.closeMemo with
  | some r => rw [forceClose_of_some env s r hm]; simp
  | none =>
    rw [forceClose_of_none env s hm]
    cases hb : getOpt s.opts.closeButton true with
    | false => rw [buildClose_of_false env s hb]; simp [hb]
    | true =>
      simp [hb, buildClose_modalMemo_of_true env s hb]

theorem forceClose_pending (env : Env) (s : MState) :
    (forceClose env s).1.pending =
      if s.closeMemo.isSome then s.pending
      else if getOpt s.opts.closeButton true then
        (if s.modalMemo.isSome then s.pending
         else schedule s.createCbs s.pending)
      else s.pending := by
  cases hm : s.closeMemo with
  | some r => rw [forceClose_of_some env s r hm]; simp
  | none =>
    rw [forceClose_of_none env s hm]
    cases hb : getOpt s.opts.closeButton true with
    | false => rw [buildClose_of_false env s hb]; simp [hb]
    | true =>
      simp [hb, buildClose_pending_of_true env s hb, forceModal_pending]

theorem forceClose_len_ge (env : Env) (s : MState) :
    s.dom.length ≤ (forceClose env s).1.dom.length := by
  cases hm : s.closeMemo with
  | some r => rw [forceClose_of_some env s r hm]
  | none =>
    rw [forceClose_of_none env s hm]
    cases hb : getOpt s.opts.closeButton true with
    | false => rw [buildClose_of_false env s hb]
    | true =>
      have h1 := forceModal_len_ge env s
      have h2 := buildClose_len_of_true env s hb
      simp only []
      omega

theorem forceClose_frame (env : Env) (s : MState) (j : Nat)
    (h : j < s.dom.length) :
    (forceClose env s).1.dom[j]? = s.dom[j]? := by
  cases hm : s.closeMemo with
  | some r => rw [forceClose_of_some env s r hm]
  | none =>
    rw [forceClose_of_none env s hm]
    cases hb : getOpt s.opts.closeButton true with
    | false => rw [buildClose_of_false env s hb]
    | true =>
      have hlt : j < (forceModal env s).1.dom.length :=
        lt_of_lt_of_le h (forceModal_len_ge env s)
      have hd := buildClose_dom_of_true env s hb j
      rw [if_pos hlt] at hd
      simp only []
      rw [hd]
      exact forceModal_frame env s j h

theorem forceClose_nBuildModal (env : Env) (s : MState) :
    (forceClose env s).1.nBuildModal =
      if s.closeMemo.isSome then s.nBuildModal
      else if getOpt s.opts.closeButton true then
        (if s.modalMemo.isSome then s.nBuildModal else s.nBuildModal + 1)
      else s.nBuildModal := by
  cases hm : s.closeMemo with
  | some r => rw [forceClose_of_some env s r hm]; simp
  | none =>
    rw [forceClose_of_none env s hm]
    cases hb : getOpt s.opts.closeButton true with
    | false => rw [buildClose_of_false env s hb]; simp [hb]
    | true =>
      simp [hb, buildClose_nBuildModal_of_true env s hb,
        forceModal_nBuildModal]

/-! ## Display bookkeeping -/

theorem displayOf_showOp_self (s : MState) (i : Nat) (e : Elem)
    (he : s.dom[i]? = some e) :
    displayOf { s with dom := showOp s.dom i } i = some (.str "block") := by
  simp [displayOf, elemStyle, showOp, getElem?_upd, he, alookup_aset]

theorem displayOf_showOp_other (s : MState) (i j : Nat) (hne : ¬ j = i) :
    displayOf { s with dom := showOp s.dom i } j = displayOf s j := by
  simp [displayOf, elemStyle, showOp, getElem?_upd, hne]

theorem displayOf_hideOp_self (s : MState) (i : Nat) (e : Elem)
    (he : s.dom[i]? = some e) :
    displayOf { s with dom := hideOp s.dom i } i = some (.str "none") := by
  simp [displayOf, elemStyle, hideOp, getElem?_upd, he, alookup_aset]

theorem displayOf_hideOp_other (s : MState) (i j : Nat) (hne : ¬ j = i) :
    displayOf { s with dom := hideOp s.dom i } j = displayOf s j := by
  simp [displayOf, elemStyle, hideOp, getElem?_upd, hne]

theorem displayOf_congr_frame (s s' : MState) (j : Nat)
    (h : s'.dom[j]? = s.dom[j]?) : displayOf s' j = displayOf s j := by
  simp [displayOf, elemStyle, h]

/-! ## The reachable-state invariant -/

theorem optsCore_overlayClose (o o' : Options)
    (h : optsCore o = optsCore o') : o.overlayClose = o'.overlayClose := by
  have := congrArg (fun t => t.2.2.1) h
  simpa [optsCore] using this

theorem optsCore_closeButton (o o' : Options)
    (h : optsCore o = optsCore o') : o.closeButton = o'.closeButton := by
  have := congrArg (fun t => t.2.2.2.1) h
  simpa [optsCore] using this

theorem optsCore_width (o o' : Options)
    (h : optsCore o = optsCore o') : o.width = o'.width := by
  have := congrArg (fun t => t.2.1) h
  simpa [optsCore] using this

theorem overlayHandler_congr (o o' : Options)
    (h : o.overlayClose = o'.overlayClose) :
    overlayHandler o = overlayHandler o' := by
  simp [overlayHandler, h]

theorem inv_init (o : Options) : Inv (init o) := by
  constructor <;> simp [init]

theorem forceShadow_inv (s : MState) (h : Inv s) : Inv (forceShadow s).1 := by
  cases hm : s.shadowMemo with
  | some i => rw [forceShadow_of_some s i hm]; exact h
  | none =>
    have hcore := buildOverlay_optsCore s
    have hS0 : s.nBuildOverlay = 0 := by
      have := h.cntS
      rw [hm] at this
      simpa using this
    rw [forceShadow_of_none s hm]
    refine ⟨?_, ?_, ?_, ?_, ?_, ?_, ?_, ?_, ?_, ?_⟩
    · simpa using h.cntM
    · simp [hS0]
    · simpa using h.cntC
    · intro k hk
      simp only [buildOverlay_modalMemo] at hk
      have := h.ltM k hk
      simp only [buildOverlay_len]
      omega
    · intro k hk
      simp only [buildOverlay_ret] at hk
      have hk' : k = s.dom.length := by
        injection hk with hk'
        omega
      simp only [buildOverlay_len]
      omega
    · intro a b ha hb
      simp only [buildOverlay_modalMemo] at ha
      simp only [buildOverlay_ret] at hb
      have hb' : b = s.dom.length := by
        injection hb with hb'
        omega
      have := h.ltM a ha
      omega
    · intro k hk
      simp only [buildOverlay_ret] at hk
      have hk' : k = s.dom.length := by
        injection hk with hk'
        omega
      subst hk'
      have hdom' : (buildOverlay s).1.dom[s.dom.length]? =
          some (overlayElemOf s.opts) := by
        rw [buildOverlay_dom]
        simp
      have hoc := optsCore_overlayClose _ _ hcore
      simp [elemHandlers, hdom', overlayElemOf,
        overlayHandler_congr _ _ hoc]
    · intro hcb
      have hcb' : getOpt s.opts.closeButton true = false := by
        rw [← optsCore_closeButton _ _ hcore]
        simpa using hcb
      simpa using h.disC hcb'
    · intro j e hj hcls
      simp only [] at hj
      rw [buildOverlay_dom] at hj
      by_cases h1 : j < s.dom.length
      · rw [if_pos h1] at hj
        simpa using h.clsC j e hj hcls
      · by_cases h2 : j = s.dom.length
        · rw [if_neg h1, if_pos h2] at hj
          injection hj with hj'
          rw [← hj'] at hcls
          simp [overlayElemOf] at hcls
        · rw [if_neg h1, if_neg h2] at hj
          exact Option.noConfusion hj
    · intro hq
      have hq' : s.closeMemo = some none := by simpa using hq
      rw [optsCore_closeButton _ _ hcore]
      exact h.noneBtn hq'

theorem forceModal_inv (env : Env) (s : MState) (h : Inv s) :
    Inv (forceModal env s).1 := by
  cases hm : s.modalMemo with
  | some i => rw [forceModal_of_some env s i hm]; exact h
  | none =>
    have hcore := buildModal_optsCore env s
    have hM0 : s.nBuildModal = 0 := by
      have := h.cntM
      rw [hm] at this
      simpa using this
    rw [forceModal_of_none env s hm]
    refine ⟨?_, ?_, ?_, ?_, ?_, ?_, ?_, ?_, ?_, ?_⟩
    · simp [hM0]
    · simpa using h.cntS
    · simpa using h.cntC
    · intro k hk
      simp only [buildModal_ret] at hk
      have hk' : k = s.dom.length := by
        injection hk with hk'
        omega
      simp only [buildModal_len]
      omega
    · intro k hk
      simp only [buildModal_shadowMemo] at hk
      have := h.ltS k hk
      simp only [buildModal_len]
      omega
    · intro a b ha hb
      simp only [buildModal_ret] at ha
      simp only [buildModal_shadowMemo] at hb
      have ha' : a = s.dom.length := by
        injection ha with ha'
        omega
      have := h.ltS b hb
      omega
    · intro k hk
      simp only [buildModal_shadowMemo] at hk
      have hklt := h.ltS k hk
      have hfr : (buildModal env s).1.dom[k]? = s.dom[k]? := by
        rw [buildModal_dom]
        rw [if_pos hklt]
      have hoc := optsCore_overlayClose _ _ hcore
      have hbase := h.hS k hk
      simp only [elemHandlers] at hbase ⊢
      simp [hfr, hbase, overlayHandler_congr _ _ hoc]
    · intro hcb
      have hcb' : getOpt s.opts.closeButton true = false := by
        rw [← optsCore_closeButton _ _ hcore]
        simpa using hcb
      simpa using h.disC hcb'
    · intro j e hj hcls
      simp only [] at hj
      rw [buildModal_dom] at hj
      by_cases h1 : j < s.dom.length
      · rw [if_pos h1] at hj
        simpa using h.clsC j e hj hcls
      · by_cases h2 : j = s.dom.length
        · rw [if_neg h1, if_pos h2] at hj
          injection hj with hj'
          rw [← hj'] at hcls
          simp [modalElemOf] at hcls
        · rw [if_neg h1, if_neg h2] at hj
          exact Option.noConfusion hj
    · intro hq
      have hq' : s.closeMemo = some none := by simpa using hq
      rw [optsCore_closeButton _ _ hcore]
      exact h.noneBtn hq'

theorem forceClose_inv (env : Env) (s : MState) (h : Inv s) :
    Inv (forceClose env s).1 := by
  cases hm : s.closeMemo with
  | some r => rw [forceClose_of_some env s r hm]; exact h
  | none =>
    have hC0 : s.nBuildClose = 0 := by
      have := h.cntC
      rw [hm] at this
      simpa using this
    rw [forceClose_of_none env s hm]
    cases hb : getOpt s.opts.closeButton true with
    | false =>
      rw [buildClose_of_false env s hb]
      refine ⟨?_, ?_, ?_, ?_, ?_, ?_, ?_, ?_, ?_, ?_⟩
      · simpa using h.cntM
      · simpa using h.cntS
      · simp [hC0]
      · intro k hk
        exact h.ltM k hk
      · intro k hk
        exact h.ltS k hk
      · exact h.neMS
      · intro k hk
        have hbase := h.hS k hk
        simpa [elemHandlers] using hbase
      · intro _
        right
        rfl
      · intro j e hj hcls
        have := h.clsC j e hj hcls
        rw [hm] at this
        exact Option.noConfusion this
      · intro _
        exact hb
    | true =>
      have hp := forceModal_inv env s h
      have hcorep := forceModal_optsCore env s
      have hcoreb := buildClose_optsCore env s
      have hret := buildClose_ret_of_true env s hb
      have hlen := buildClose_len_of_true env s hb
      have hpclose : (forceModal env s).1.closeMemo = none := by
        rw [forceModal_closeMemo]
        exact hm
      refine ⟨?_, ?_, ?_, ?_, ?_, ?_, ?_, ?_, ?_, ?_⟩
      · have := hp.cntM
        simpa [buildClose_nBuildModal_of_true env s hb,
          buildClose_modalMemo_of_true env s hb] using this
      · have := hp.cntS
        simpa [buildClose_nBuildOverlay_of_true env s hb,
          buildClose_shadowMemo_of_true env s hb] using this
      · have hpc := hp.cntC
        rw [hpclose] at hpc
        simp at hpc
        simp [buildClose_nBuildClose_of_true env s hb, hpc]
      · intro k hk
        simp only [buildClose_modalMemo_of_true env s hb] at hk
        have := hp.ltM k hk
        simp only [hlen]
        omega
      · intro k hk
        simp only [buildClose_shadowMemo_of_true env s hb] at hk
        have := hp.ltS k hk
        simp only [hlen]
        omega
      · intro a b ha hb2
        simp only [buildClose_modalMemo_of_true env s hb] at ha
        simp only [buildClose_shadowMemo_of_true env s hb] at hb2
        exact hp.neMS a b ha hb2
      · intro k hk
        simp only [buildClose_shadowMemo_of_true env s hb] at hk
        have hklt := hp.ltS k hk
        have hfr : (buildClose env s).1.dom[k]? =
            (forceModal env s).1.dom[k]? := by
          rw [buildClose_dom_of_true env s hb]
          rw [if_pos hklt]
        have hoc : (buildClose env s).1.opts.overlayClose =
            (forceModal env s).1.opts.overlayClose := by
          rw [optsCore_overlayClose _ _ hcoreb,
            ← optsCore_overlayClose _ _ hcorep]
        have hbase := hp.hS k hk
        simp only [elemHandlers] at hbase ⊢
        simp [hfr, hbase, overlayHandler_congr _ _ hoc]
      · intro hcb
        have hcb' : getOpt s.opts.closeButton true = false := by
          rw [← optsCore_closeButton _ _ hcoreb]
          simpa using hcb
        rw [hb] at hcb'
        exact Bool.noConfusion hcb'
      · intro j e hj hcls
        simp only [] at hj
        rw [buildClose_dom_of_true env s hb] at hj
        by_cases h1 : j < (forceModal env s).1.dom.length
        · rw [if_pos h1] at hj
          have := hp.clsC j e hj hcls
          rw [hpclose] at this
          exact Option.noConfusion this
        · by_cases h2 : j = (forceModal env s).1.dom.length
          · rw [if_neg h1, if_pos h2] at hj
            simp only [hret]
            rw [h2]
          · rw [if_neg h1, if_neg h2] at hj
            exact Option.noConfusion hj
      · intro hq
        have hq' : (buildClose env s).2 = none := by simpa using hq
        rw [hret] at hq'
        exact Option.noConfusion hq'

theorem inv_pending (s : MState) (p : List (Nat × CbArg)) (h : Inv s) :
    Inv { s with pending := p } :=
  ⟨h.cntM, h.cntS, h.cntC, h.ltM, h.ltS, h.neMS, h.hS, h.disC, h.clsC, h.noneBtn⟩

theorem inv_pendingInvoked (s : MState) (p q : List (Nat × CbArg))
    (h : Inv s) : Inv { s with pending := p, invoked := q } :=
  ⟨h.cntM, h.cntS, h.cntC, h.ltM, h.ltS, h.neMS, h.hS, h.disC, h.clsC, h.noneBtn⟩

theorem inv_createCbs (s : MState) (c : List Nat) (h : Inv s) :
    Inv { s with createCbs := c } :=
  ⟨h.cntM, h.cntS, h.cntC, h.ltM, h.ltS, h.neMS, h.hS, h.disC, h.clsC, h.noneBtn⟩

theorem inv_showCbs (s : MState) (c : List Nat) (h : Inv s) :
    Inv { s with showCbs := c } :=
  ⟨h.cntM, h.cntS, h.cntC, h.ltM, h.ltS, h.neMS, h.hS, h.disC, h.clsC, h.noneBtn⟩

theorem inv_closeCbs (s : MState) (c : List Nat) (h : Inv s) :
    Inv { s with closeCbs := c } :=
  ⟨h.cntM, h.cntS, h.cntC, h.ltM, h.ltS, h.neMS, h.hS, h.disC, h.clsC, h.noneBtn⟩

theorem inv_destroyedFlag (s : MState) (b : Bool) (h : Inv s) :
    Inv { s with destroyed := b } :=
  ⟨h.cntM, h.cntS, h.cntC, h.ltM, h.ltS, h.neMS, h.hS, h.disC, h.clsC, h.noneBtn⟩

theorem inv_upd (s : MState) (i : Nat) (f : Elem → Elem)
    (hcl : ∀ e, (f e).className = e.className)
    (hh : ∀ e, (f e).handlers = e.handlers)
    (h : Inv s) : Inv { s with dom := upd s.dom i f } := by
  refine ⟨h.cntM, h.cntS, h.cntC, ?_, ?_, h.neMS, ?_, h.disC, ?_, h.noneBtn⟩
  · intro k hk
    have := h.ltM k hk
    simpa [upd_length] using this
  · intro k hk
    have := h.ltS k hk
    simpa [upd_length] using this
  · intro k hk
    have hbase := h.hS k hk
    simp only [elemHandlers, getElem?_upd] at hbase ⊢
    by_cases hki : k = i
    · subst hki
      rw [if_pos rfl]
      cases he : s.dom[k]? with
      | none =>
        rw [he] at hbase
        simp at hbase
      | some e =>
        rw [he] at hbase
        simpa [he, hh e] using hbase
    · rw [if_neg hki]
      exact hbase
  · intro j e hj hcls
    simp only [getElem?_upd] at hj
    by_cases hji : j = i
    · subst hji
      rw [if_pos rfl] at hj
      cases he : s.dom[j]? with
      | none =>
        rw [he] at hj
        exact Option.noConfusion hj
      | some e0 =>
        rw [he] at hj
        have hj' : f e0 = e := by
          simpa using hj
        have he0 : e0.className = "pico-close" := by
          rw [← hcl e0, hj']
          exact hcls
        exact h.clsC j e0 he he0
    · rw [if_neg hji] at hj
      exact h.clsC j e hj hcls

theorem closeFn_inv (env : Env) (s s' : MState) (hInv : Inv s)
    (h : closeFn env s = .ok s') : Inv s' := by
  by_cases hd : s.destroyed = true
  · rw [closeFn, if_pos hd] at h
    exact Except.noConfusion h
  · rw [closeFn, if_neg hd] at h
    injection h with h
    subst h
    refine inv_pending _ _ (inv_upd _ _ _ (fun e => rfl) (fun e => rfl)
      (forceModal_inv env _ (inv_upd _ _ _ (fun e => rfl) (fun e => rfl)
        (forceShadow_inv s hInv))))

theorem showFn_inv (env : Env) (s s' : MState) (hInv : Inv s)
    (h : showFn env s = .ok s') : Inv s' := by
  by_cases hd : s.destroyed = true
  · rw [showFn, if_pos hd] at h
    exact Except.noConfusion h
  · rw [showFn, if_neg hd] at h
    injection h with h
    subst h
    refine inv_pending _ _ (inv_upd _ _ _ (fun e => rfl) (fun e => rfl)
      (forceModal_inv env _ (forceClose_inv env _
        (inv_upd _ _ _ (fun e => rfl) (fun e => rfl)
          (forceShadow_inv s hInv)))))

theorem destroyFn_inv (env : Env) (s s' : MState) (hInv : Inv s)
    (h : destroyFn env s = .ok s') : Inv s' := by
  by_cases hd : s.destroyed = true
  · rw [destroyFn, if_pos hd] at h
    exact Except.noConfusion h
  · rw [destroyFn, if_neg hd] at h
    injection h with h
    subst h
    refine inv_destroyedFlag _ _ (inv_upd _ _ _ (fun e => rfl) (fun e => rfl)
      (forceShadow_inv _ (inv_upd _ _ _ (fun e => rfl) (fun e => rfl)
        (forceModal_inv env s hInv))))

theorem runHandlers_nil (env : Env) (s : MState) :
    runHandlers env s [] = .ok s := rfl

theorem runHandlers_cons_close (env : Env) (s : MState)
    (rest : List Handler) :
    runHandlers env s (.closeH :: rest) =
      match closeFn env s with
      | .ok s1 => runHandlers env s1 rest
      | .error e => .error e := rfl

theorem runHandlers_cons_noop (env : Env) (s : MState)
    (rest : List Handler) :
    runHandlers env s (.noopH :: rest) = runHandlers env s rest := rfl

theorem runHandlers_cons_user (env : Env) (s : MState) (n : Nat)
    (rest : List Handler) :
    runHandlers env s (.userH n :: rest) = runHandlers env s rest := rfl

theorem runHandlers_inv (env : Env) (l : List Handler) (s s' : MState)
    (hInv : Inv s) (h : runHandlers env s l = .ok s') : Inv s' := by
  induction l generalizing s with
  | nil =>
    rw [runHandlers_nil] at h
    injection h with h
    subst h
    exact hInv
  | cons hd rest ih =>
    cases hd with
    | closeH =>
      rw [runHandlers_cons_close] at h
      cases hc : closeFn env s with
      | ok s1 =>
        rw [hc] at h
        exact ih s1 (closeFn_inv env s s1 hInv hc) h
      | error e =>
        rw [hc] at h
        exact Except.noConfusion h
    | noopH =>
      rw [runHandlers_cons_noop] at h
      exact ih s hInv h
    | userH n =>
      rw [runHandlers_cons_user] at h
      exact ih s hInv h

theorem step_inv (env : Env) (s : MState) (op : Op) (s' : MState)
    (hInv : Inv s) (h : step env s op = .ok s') : Inv s' := by
  cases op with
  | opShow => exact showFn_inv env s s' hInv h
  | opClose => exact closeFn_inv env s s' hInv h
  | opDestroy => exact destroyFn_inv env s s' hInv h
  | accModal =>
    rw [step] at h
    injection h with h
    subst h
    exact forceModal_inv env s hInv
  | accOveral =>
    rw [step] at h
    injection h with h
    subst h
    exact forceShadow_inv s hInv
  | accClose =>
    rw [step] at h
    cases hc : closeElemAcc env s with
    | ok p =>
      rw [hc] at h
      injection h with h
      subst h
      have : p.1 = (forceClose env s).1 := by
        rw [closeElemAcc] at hc
        cases hr : (forceClose env s).2 with
        | some i =>
          rw [hr] at hc
          injection hc with hc
          rw [← hc]
        | none =>
          rw [hr] at hc
          exact Except.noConfusion hc
      rw [this]
      exact forceClose_inv env s hInv
    | error e =>
      rw [hc] at h
      exact Except.noConfusion h
  | watchCreate c =>
    rw [step] at h
    injection h with h
    subst h
    exact inv_createCbs s _ hInv
  | watchShow c =>
    rw [step] at h
    injection h with h
    subst h
    exact inv_showCbs s _ hInv
  | watchClose c =>
    rw [step] at h
    injection h with h
    subst h
    exact inv_closeCbs s _ hInv
  | clickOverlay =>
    rw [step] at h
    cases hm : s.shadowMemo with
    | some i =>
      rw [hm] at h
      exact runHandlers_inv env _ s s' hInv h
    | none =>
      rw [hm] at h
      injection h with h
      subst h
      exact hInv
  | clickCloseBtn =>
    rw [step] at h
    cases hm : s.closeMemo with
    | some r =>
      cases r with
      | some i =>
        rw [hm] at h
        exact runHandlers_inv env _ s s' hInv h
      | none =>
        rw [hm] at h
        injection h with h
        subst h
        exact hInv
    | none =>
      rw [hm] at h
      injection h with h
      subst h
      exact hInv
  | runTimer =>
    rw [step] at h
    cases hp : s.pending with
    | nil =>
      rw [hp] at h
      injection h with h
      subst h
      exact hInv
    | cons p rest =>
      rw [hp] at h
      injection h with h
      subst h
      exact inv_pendingInvoked s _ _ hInv

theorem closeFn_opts_pure (env : Env) (s s' : MState)
    (hno : noOpacityB s.opts = true) (h : closeFn env s = .ok s') :
    s'.opts = s.opts := by
  by_cases hd : s.destroyed = true
  · rw [closeFn, if_pos hd] at h
    exact Except.noConfusion h
  · rw [closeFn, if_neg hd] at h
    injection h with h
    subst h
    have h1 : (forceShadow s).1.opts = s.opts := forceShadow_opts_pure s hno
    have hno2 : noOpacityB ({ (forceShadow s).1 with
        dom := hideOp (forceShadow s).1.dom (forceShadow s).2 } : MState).opts
        = true := by
      show noOpacityB (forceShadow s).1.opts = true
      rw [h1]
      exact hno
    have h3 := forceModal_opts_pure env _ hno2
    exact h3.trans h1

theorem showFn_opts_pure (env : Env) (s s' : MState)
    (hno : noOpacityB s.opts = true) (h : showFn env s = .ok s') :
    s'.opts = s.opts := by
  by_cases hd : s.destroyed = true
  · rw [showFn, if_pos hd] at h
    exact Except.noConfusion h
  · rw [showFn, if_neg hd] at h
    injection h with h
    subst h
    have h1 : (forceShadow s).1.opts = s.opts := forceShadow_opts_pure s hno
    have hno2 : noOpacityB ({ (forceShadow s).1 with
        dom := showOp (forceShadow s).1.dom (forceShadow s).2 } : MState).opts
        = true := by
      show noOpacityB (forceShadow s).1.opts = true
      rw [h1]
      exact hno
    have h2 := forceClose_opts_pure env _ hno2
    have hno3 : noOpacityB (forceClose env { (forceShadow s).1 with
        dom := showOp (forceShadow s).1.dom (forceShadow s).2 }).1.opts
        = true := by
      rw [h2]
      exact hno2
    have h3 := forceModal_opts_pure env _ hno3
    exact (h3.trans h2).trans h1

theorem destroyFn_opts_pure (env : Env) (s s' : MState)
    (hno : noOpacityB s.opts = true) (h : destroyFn env s = .ok s') :
    s'.opts = s.opts := by
  by_cases hd : s.destroyed = true
  · rw [destroyFn, if_pos hd] at h
    exact Except.noConfusion h
  · rw [destroyFn, if_neg hd] at h
    injection h with h
    subst h
    have h1 : (forceModal env s).1.opts = s.opts :=
      forceModal_opts_pure env s hno
    have hno2 : noOpacityB ({ (forceModal env s).1 with
        dom := removeOp (forceModal env s).1.dom
          (forceModal env s).2 } : MState).opts = true := by
      show noOpacityB (forceModal env s).1.opts = true
      rw [h1]
      exact hno
    have h3 := forceShadow_opts_pure _ hno2
    exact h3.trans h1

theorem runHandlers_opts_pure (env : Env) (l : List Handler) (s s' : MState)
    (hno : noOpacityB s.opts = true) (h : runHandlers env s l = .ok s') :
    s'.opts = s.opts := by
  induction l generalizing s with
  | nil =>
    rw [runHandlers_nil] at h
    injection h with h
    subst h
    rfl
  | cons hd rest ih =>
    cases hd with
    | closeH =>
      rw [runHandlers_cons_close] at h
      cases hc : closeFn env s with
      | ok s1 =>
        rw [hc] at h
        have h1 := closeFn_opts_pure env s s1 hno hc
        have hno1 : noOpacityB s1.opts = true := by
          rw [h1]
          exact hno
        exact (ih s1 hno1 h).trans h1
      | error e =>
        rw [hc] at h
        exact Except.noConfusion h
    | noopH =>
      rw [runHandlers_cons_noop] at h
      exact ih s hno h
    | userH n =>
      rw [runHandlers_cons_user] at h
      exact ih s hno h

theorem step_opts_pure (env : Env) (s : MState) (op : Op) (s' : MState)
    (hno : noOpacityB s.opts = true) (h : step env s op = .ok s') :
    s'.opts = s.opts := by
  cases op with
  | opShow => exact showFn_opts_pure env s s' hno h
  | opClose => exact closeFn_opts_pure env s s' hno h
  | opDestroy => exact destroyFn_opts_pure env s s' hno h
  | accModal =>
    rw [step] at h
    injection h with h
    subst h
    exact forceModal_opts_pure env s hno
  | accOveral =>
    rw [step] at h
    injection h with h
    subst h
    exact forceShadow_opts_pure s hno
  | accClose =>
    rw [step] at h
    cases hc : closeElemAcc env s with
    | ok p =>
      rw [hc] at h
      injection h with h
      subst h
      have hp : p.1 = (forceClose env s).1 := by
        rw [closeElemAcc] at hc
        cases hr : (forceClose env s).2 with
        | some i =>
          rw [hr] at hc
          injection hc with hc
          rw [← hc]
        | none =>
          rw [hr] at hc
          exact Except.noConfusion hc
      rw [hp]
      exact forceClose_opts_pure env s hno
    | error e =>
      rw [hc] at h
      exact Except.noConfusion h
  | watchCreate c =>
    rw [step] at h
    injection h with h
    subst h
    rfl
  | watchShow c =>
    rw [step] at h
    injection h with h
    subst h
    rfl
  | watchClose c =>
    rw [step] at h
    injection h with h
    subst h
    rfl
  | clickOverlay =>
    rw [step] at h
    cases hm : s.shadowMemo with
    | some i =>
      rw [hm] at h
      exact runHandlers_opts_pure env _ s s' hno h
    | none =>
      rw [hm] at h
      injection h with h
      subst h
      rfl
  | clickCloseBtn =>
    rw [step] at h
    cases hm : s.closeMemo with
    | some r =>
      cases r with
      | some i =>
        rw [hm] at h
        exact runHandlers_opts_pure env _ s s' hno h
      | none =>
        rw [hm] at h
        injection h with h
        subst h
        rfl
    | none =>
      rw [hm] at h
      injection h with h
      subst h
      rfl
  | runTimer =>
    rw [step] at h
    cases hp : s.pending with
    | nil =>
      rw [hp] at h
      injection h with h
      subst h
      rfl
    | cons p rest =>
      rw [hp] at h
      injection h with h
      subst h
      rfl

theorem run_opts_pure (env : Env) (s : MState) (ops : List Op) (s' : MState)
    (hno : noOpacityB s.opts = true) (h : run env s ops = .ok s') :
    s'.opts = s.opts := by
  induction ops generalizing s with
  | nil =>
    rw [run] at h
    injection h with h
    subst h
    rfl
  | cons op rest ih =>
    rw [run] at h
    cases hs : step env s op with
    | ok s1 =>
      rw [hs] at h
      have h1 := step_opts_pure env s op s1 hno hs
      have hno1 : noOpacityB s1.opts = true := by
        rw [h1]
        exact hno
      exact (ih s1 hno1 h).trans h1
    | error e =>
      rw [hs] at h
      exact Except.noConfusion h

/-! ## The show and close pipelines -/

theorem showFn_eq (env : Env) (s : MState) (hd : s.destroyed = false) :
    showFn env s = .ok (showResult env s) := by
  have hnd : ¬ s.destroyed = true := by simp [hd]
  rw [showFn, if_neg hnd]
  rfl

theorem closeFn_eq (env : Env) (s : MState) (hd : s.destroyed = false) :
    closeFn env s = .ok (closeResult env s) := by
  have hnd : ¬ s.destroyed = true := by simp [hd]
  rw [closeFn, if_neg hnd]
  rfl

theorem showFn_spec (env : Env) (s : MState) (hInv : Inv s)
    (hd : s.destroyed = false) :
    showFn env s = .ok (showResult env s) ∧
    (showResult env s).shadowMemo = some (forceShadow s).2 ∧
    (showResult env s).modalMemo = some (showMid env s) ∧
    displayOf (showResult env s) (forceShadow s).2 = some (.str "block") ∧
    displayOf (showResult env s) (showMid env s) = some (.str "block") ∧
    (showResult env s).destroyed = false ∧
    Inv (showResult env s) ∧
    (∀ i, s.shadowMemo = some i → (forceShadow s).2 = i) ∧
    (∀ i, s.modalMemo = some i → showMid env s = i) := by
  have hok := showFn_eq env s hd
  have hInvA : Inv (forceShadow s).1 := forceShadow_inv s hInv
  have hInv2 : Inv (showS2 s) :=
    inv_upd (forceShadow s).1 (forceShadow s).2 _
      (fun e => rfl) (fun e => rfl) hInvA
  have hoidltA : (forceShadow s).2 < (forceShadow s).1.dom.length :=
    forceShadow_ret_lt s hInv.ltS
  have hlen2 : (showS2 s).dom.length = (forceShadow s).1.dom.length := by
    simp [showS2, showOp, upd_length]
  have hoidlt2 : (forceShadow s).2 < (showS2 s).dom.length := by
    rw [hlen2]
    exact hoidltA
  obtain ⟨eo, heo⟩ :=
    getElem?_of_lt (forceShadow s).1.dom (forceShadow s).2 hoidltA
  have hdisp2 : displayOf (showS2 s) (forceShadow s).2 =
      some (.str "block") :=
    displayOf_showOp_self (forceShadow s).1 _ eo heo
  have hInv3 : Inv (forceClose env (showS2 s)).1 := forceClose_inv env _ hInv2
  have hInv4 : Inv (showS4 env s) := forceModal_inv env _ hInv3
  have hmemo2s : (showS2 s).shadowMemo = some (forceShadow s).2 := by
    show (forceShadow s).1.shadowMemo = some (forceShadow s).2
    rw [forceShadow_shadowMemo]
  have hmemo3s : (forceClose env (showS2 s)).1.shadowMemo =
      some (forceShadow s).2 := by
    rw [forceClose_shadowMemo]
    exact hmemo2s
  have hmemo4s : (showS4 env s).shadowMemo = some (forceShadow s).2 := by
    rw [showS4, forceModal_shadowMemo]
    exact hmemo3s
  have hmemo4m : (showS4 env s).modalMemo = some (showMid env s) := by
    rw [showS4, showMid]
    exact forceModal_modalMemo env _
  have hne : ¬ (forceShadow s).2 = showMid env s :=
    fun hEq => (hInv4.neMS _ _ hmemo4m hmemo4s) hEq.symm
  have hframe3 : (forceClose env (showS2 s)).1.dom[(forceShadow s).2]? =
      (showS2 s).dom[(forceShadow s).2]? :=
    forceClose_frame env _ _ hoidlt2
  have hdisp3 : displayOf (forceClose env (showS2 s)).1 (forceShadow s).2 =
      some (.str "block") := by
    rw [displayOf_congr_frame _ _ _ hframe3]
    exact hdisp2
  have hoidlt3 : (forceShadow s).2 <
      (forceClose env (showS2 s)).1.dom.length :=
    lt_of_lt_of_le hoidlt2 (forceClose_len_ge env _)
  have hframe4 : (showS4 env s).dom[(forceShadow s).2]? =
      (forceClose env (showS2 s)).1.dom[(forceShadow s).2]? :=
    forceModal_frame env _ _ hoidlt3
  have hdisp4 : displayOf (showS4 env s) (forceShadow s).2 =
      some (.str "block") := by
    rw [displayOf_congr_frame _ _ _ hframe4]
    exact hdisp3
  have hmidlt : showMid env s < (showS4 env s).dom.length :=
    forceModal_ret_lt env _ hInv3.ltM
  obtain ⟨em, hem⟩ := getElem?_of_lt _ _ hmidlt
  have hdisp5m : displayOf (showS5 env s) (showMid env s) =
      some (.str "block") :=
    displayOf_showOp_self (showS4 env s) _ em hem
  have hdisp5o : displayOf (showS5 env s) (forceShadow s).2 =
      some (.str "block") := by
    rw [showS5, displayOf_showOp_other (showS4 env s) (showMid env s)
      (forceShadow s).2 hne]
    exact hdisp4
  have hresd : (showResult env s).destroyed = false := by
    show (showS4 env s).destroyed = false
    rw [showS4, forceModal_destroyed, forceClose_destroyed]
    show (forceShadow s).1.destroyed = false
    rw [forceShadow_destroyed]
    exact hd
  have hresInv : Inv (showResult env s) :=
    inv_pending (showS5 env s) _
      (inv_upd (showS4 env s) (showMid env s) _
        (fun e => rfl) (fun e => rfl) hInv4)
  refine ⟨hok, hmemo4s, hmemo4m, hdisp5o, hdisp5m, hresd, hresInv, ?_, ?_⟩
  · intro i hi
    rw [forceShadow_of_some s i hi]
  · intro i hi
    have h2i : (showS2 s).modalMemo = some i := by
      show (forceShadow s).1.modalMemo = some i
      rw [forceShadow_modalMemo]
      exact hi
    have h3i : (forceClose env (showS2 s)).1.modalMemo = some i := by
      rw [forceClose_modalMemo]
      by_cases hc : (showS2 s).closeMemo.isSome
      · rw [if_pos hc]
        exact h2i
      · rw [if_neg hc]
        by_cases hbtn : getOpt (showS2 s).opts.closeButton true = true
        · rw [if_pos hbtn]
          rw [forceModal_of_some env (showS2 s) i h2i]
        · have hbtn' : ¬ (getOpt (showS2 s).opts.closeButton true = true) :=
            hbtn
          rw [if_neg hbtn']
          exact h2i
    rw [showMid, forceModal_of_some env _ i h3i]

@[simp] theorem showS2_closeMemo (s : MState) :
    (showS2 s).closeMemo = s.closeMemo := by
  show (forceShadow s).1.closeMemo = s.closeMemo
  rw [forceShadow_closeMemo]

@[simp] theorem showS2_modalMemo (s : MState) :
    (showS2 s).modalMemo = s.modalMemo := by
  show (forceShadow s).1.modalMemo = s.modalMemo
  rw [forceShadow_modalMemo]

@[simp] theorem showS2_pending (s : MState) :
    (showS2 s).pending = s.pending := by
  show (forceShadow s).1.pending = s.pending
  rw [forceShadow_pending]

@[simp] theorem showS2_createCbs (s : MState) :
    (showS2 s).createCbs = s.createCbs := by
  show (forceShadow s).1.createCbs = s.createCbs
  rw [forceShadow_createCbs]

@[simp] theorem showS2_showCbs (s : MState) :
    (showS2 s).showCbs = s.showCbs := by
  show (forceShadow s).1.showCbs = s.showCbs
  rw [forceShadow_showCbs]

@[simp] theorem showS2_invoked (s : MState) :
    (showS2 s).invoked = s.invoked := by
  show (forceShadow s).1.invoked = s.invoked
  rw [forceShadow_invoked]

@[simp] theorem closeS2_modalMemo (s : MState) :
    (closeS2 s).modalMemo = s.modalMemo := by
  show (forceShadow s).1.modalMemo = s.modalMemo
  rw [forceShadow_modalMemo]

@[simp] theorem closeS2_pending (s : MState) :
    (closeS2 s).pending = s.pending := by
  show (forceShadow s).1.pending = s.pending
  rw [forceShadow_pending]

@[simp] theorem closeS2_createCbs (s : MState) :
    (closeS2 s).createCbs = s.createCbs := by
  show (forceShadow s).1.createCbs = s.createCbs
  rw [forceShadow_createCbs]

@[simp] theorem closeS2_closeCbs (s : MState) :
    (closeS2 s).closeCbs = s.closeCbs := by
  show (forceShadow s).1.closeCbs = s.closeCbs
  rw [forceShadow_closeCbs]

@[simp] theorem closeS2_invoked (s : MState) :
    (closeS2 s).invoked = s.invoked := by
  show (forceShadow s).1.invoked = s.invoked
  rw [forceShadow_invoked]

theorem showResult_pending (env : Env) (s : MState) :
    (showResult env s).pending =
      schedule s.showCbs
        (if s.modalMemo.isSome then s.pending
         else schedule s.createCbs s.pending) := by
  show schedule (showS5 env s).showCbs (showS5 env s).pending = _
  have hcbs : (showS5 env s).showCbs = s.showCbs := by
    show (forceModal env (forceClose env (showS2 s)).1).1.showCbs = s.showCbs
    rw [forceModal_showCbs, forceClose_showCbs, showS2_showCbs]
  have hpend : (showS5 env s).pending =
      (if s.modalMemo.isSome then s.pending
       else schedule s.createCbs s.pending) := by
    show (forceModal env (forceClose env (showS2 s)).1).1.pending = _
    rw [forceModal_pending, forceClose_modalMemo, forceClose_pending,
      forceClose_createCbs, showS2_closeMemo, showS2_modalMemo,
      showS2_pending, showS2_createCbs]
    by_cases hc : s.closeMemo.isSome
    · rw [if_pos hc, if_pos hc]
    · rw [if_neg hc, if_neg hc]
      by_cases hbtn : getOpt (showS2 s).opts.closeButton true = true
      · rw [if_pos hbtn, if_pos hbtn]
        simp
      · rw [if_neg hbtn, if_neg hbtn]
  rw [hcbs, hpend]

theorem showResult_invoked (env : Env) (s : MState) :
    (showResult env s).invoked = s.invoked := by
  show (forceModal env (forceClose env (showS2 s)).1).1.invoked = s.invoked
  rw [forceModal_invoked, forceClose_invoked, showS2_invoked]

theorem closeResult_pending (env : Env) (s : MState) :
    (closeResult env s).pending =
      schedule s.closeCbs
        (if s.modalMemo.isSome then s.pending
         else schedule s.createCbs s.pending) := by
  show schedule (closeS4 env s).closeCbs (closeS4 env s).pending = _
  have hcbs : (closeS4 env s).closeCbs = s.closeCbs := by
    show (forceModal env (closeS2 s)).1.closeCbs = s.closeCbs
    rw [forceModal_closeCbs, closeS2_closeCbs]
  have hpend : (closeS4 env s).pending =
      (if s.modalMemo.isSome then s.pending
       else schedule s.createCbs s.pending) := by
    show (forceModal env (closeS2 s)).1.pending = _
    rw [forceModal_pending, closeS2_modalMemo, closeS2_pending,
      closeS2_createCbs]
  rw [hcbs, hpend]

theorem closeResult_invoked (env : Env) (s : MState) :
    (closeResult env s).invoked = s.invoked := by
  show (forceModal env (closeS2 s)).1.invoked = s.invoked
  rw [forceModal_invoked, closeS2_invoked]

theorem runHandlers_single_close (env : Env) (s : MState) :
    runHandlers env s [Handler.closeH] = closeFn env s := by
  rw [runHandlers_cons_close]
  cases hc : closeFn env s with
  | ok s1 =>
    show runHandlers env s1 [] = Except.ok s1
    rw [runHandlers_nil]
  | error e => rfl

theorem closeFn_spec (env : Env) (s : MState) (hInv : Inv s)
    (hd : s.destroyed = false) :
    closeFn env s = .ok (closeResult env s) ∧
    (closeResult env s).shadowMemo = some (forceShadow s).2 ∧
    (closeResult env s).modalMemo = some (closeMid env s) ∧
    displayOf (closeResult env s) (forceShadow s).2 = some (.str "none") ∧
    displayOf (closeResult env s) (closeMid env s) = some (.str "none") ∧
    (closeResult env s).destroyed = false ∧
    Inv (closeResult env s) ∧
    (∀ i, s.shadowMemo = some i → (forceShadow s).2 = i) ∧
    (∀ i, s.modalMemo = some i → closeMid env s = i) := by
  have hok := closeFn_eq env s hd
  have hInvA : Inv (forceShadow s).1 := forceShadow_inv s hInv
  have hInv2 : Inv (closeS2 s) :=
    inv_upd (forceShadow s).1 (forceShadow s).2 _
      (fun e => rfl) (fun e => rfl) hInvA
  have hoidltA : (forceShadow s).2 < (forceShadow s).1.dom.length :=
    forceShadow_ret_lt s hInv.ltS
  have hlen2 : (closeS2 s).dom.length = (forceShadow s).1.dom.length := by
    simp [closeS2, hideOp, upd_length]
  have hoidlt2 : (forceShadow s).2 < (closeS2 s).dom.length := by
    rw [hlen2]
    exact hoidltA
  obtain ⟨eo, heo⟩ :=
    getElem?_of_lt (forceShadow s).1.dom (forceShadow s).2 hoidltA
  have hdisp2 : displayOf (closeS2 s) (forceShadow s).2 =
      some (.str "none") :=
    displayOf_hideOp_self (forceShadow s).1 _ eo heo
  have hInv3 : Inv (forceModal env (closeS2 s)).1 :=
    forceModal_inv env _ hInv2
  have hmemo2s : (closeS2 s).shadowMemo = some (forceShadow s).2 := by
    show (forceShadow s).1.shadowMemo = some (forceShadow s).2
    rw [forceShadow_shadowMemo]
  have hmemo3s : (forceModal env (closeS2 s)).1.shadowMemo =
      some (forceShadow s).2 := by
    rw [forceModal_shadowMemo]
    exact hmemo2s
  have hmemo3m : (forceModal env (closeS2 s)).1.modalMemo =
      some (closeMid env s) := by
    rw [closeMid]
    exact forceModal_modalMemo env _
  have hne : ¬ (forceShadow s).2 = closeMid env s :=
    fun hEq => (hInv3.neMS _ _ hmemo3m hmemo3s) hEq.symm
  have hframe3 : (forceModal env (closeS2 s)).1.dom[(forceShadow s).2]? =
      (closeS2 s).dom[(forceShadow s).2]? :=
    forceModal_frame env _ _ hoidlt2
  have hdisp3 : displayOf (forceModal env (closeS2 s)).1 (forceShadow s).2 =
      some (.str "none") := by
    rw [displayOf_congr_frame _ _ _ hframe3]
    exact hdisp2
  have hmidlt : closeMid env s < (forceModal env (closeS2 s)).1.dom.length :=
    forceModal_ret_lt env _ hInv2.ltM
  obtain ⟨em, hem⟩ := getElem?_of_lt _ _ hmidlt
  have hdisp4m : displayOf (closeS4 env s) (closeMid env s) =
      some (.str "none") :=
    displayOf_hideOp_self (forceModal env (closeS2 s)).1 _ em hem
  have hdisp4o : displayOf (closeS4 env s) (forceShadow s).2 =
      some (.str "none") := by
    rw [closeS4, displayOf_hideOp_other (forceModal env (closeS2 s)).1
      (closeMid env s) (forceShadow s).2 hne]
    exact hdisp3
  have hresd : (closeResult env s).destroyed = false := by
    show (forceModal env (closeS2 s)).1.destroyed = false
    rw [forceModal_destroyed]
    show (forceShadow s).1.destroyed = false
    rw [forceShadow_destroyed]
    exact hd
  have hresInv : Inv (closeResult env s) :=
    inv_pending (closeS4 env s) _
      (inv_upd (forceModal env (closeS2 s)).1 (closeMid env s) _
        (fun e => rfl) (fun e => rfl) hInv3)
  refine ⟨hok, hmemo3s, hmemo3m, hdisp4o, hdisp4m, hresd, hresInv, ?_, ?_⟩
  · intro i hi
    rw [forceShadow_of_some s i hi]
  · intro i hi
    have h2i : (closeS2 s).modalMemo = some i := by
      show (forceShadow s).1.modalMemo = some i
      rw [forceShadow_modalMemo]
      exact hi
    rw [closeMid, forceModal_of_some env _ i h2i]

theorem closeFn_optsCore (env : Env) (s s' : MState)
    (h : closeFn env s = .ok s') : optsCore s'.opts = optsCore s.opts := by
  by_cases hd : s.destroyed = true
  · rw [closeFn, if_pos hd] at h
    exact Except.noConfusion h
  · rw [closeFn, if_neg hd] at h
    injection h with h
    subst h
    have h1 : optsCore (forceShadow s).1.opts = optsCore s.opts :=
      forceShadow_optsCore s
    have h2 := forceModal_optsCore env
      ({ (forceShadow s).1 with
         dom := hideOp (forceShadow s).1.dom (forceShadow s).2 } : MState)
    exact h2.trans h1

theorem showFn_optsCore (env : Env) (s s' : MState)
    (h : showFn env s = .ok s') : optsCore s'.opts = optsCore s.opts := by
  by_cases hd : s.destroyed = true
  · rw [showFn, if_pos hd] at h
    exact Except.noConfusion h
  · rw [showFn, if_neg hd] at h
    injection h with h
    subst h
    have h1 : optsCore (forceShadow s).1.opts = optsCore s.opts :=
      forceShadow_optsCore s
    have h2 := forceClose_optsCore env
      ({ (forceShadow s).1 with
         dom := showOp (forceShadow s).1.dom (forceShadow s).2 } : MState)
    have h3 := forceModal_optsCore env
      (forceClose env ({ (forceShadow s).1 with
         dom := showOp (forceShadow s).1.dom (forceShadow s).2 } : MState)).1
    exact (h3.trans h2).trans h1

theorem destroyFn_optsCore (env : Env) (s s' : MState)
    (h : destroyFn env s = .ok s') : optsCore s'.opts = optsCore s.opts := by
  by_cases hd : s.destroyed = true
  · rw [destroyFn, if_pos hd] at h
    exact Except.noConfusion h
  · rw [destroyFn, if_neg hd] at h
    injection h with h
    subst h
    have h1 : optsCore (forceModal env s).1.opts = optsCore s.opts :=
      forceModal_optsCore env s
    have h2 := forceShadow_optsCore
      ({ (forceModal env s).1 with
         dom := removeOp (forceModal env s).1.dom (forceModal env s).2 }
         : MState)
    exact h2.trans h1

theorem runHandlers_optsCore (env : Env) (l : List Handler) (s s' : MState)
    (h : runHandlers env s l = .ok s') :
    optsCore s'.opts = optsCore s.opts := by
  induction l generalizing s with
  | nil =>
    rw [runHandlers_nil] at h
    injection h with h
    subst h
    rfl
  | cons hd rest ih =>
    cases hd with
    | closeH =>
      rw [runHandlers_cons_close] at h
      cases hc : closeFn env s with
      | ok s1 =>
        rw [hc] at h
        exact (ih s1 h).trans (closeFn_optsCore env s s1 hc)
      | error e =>
        rw [hc] at h
        exact Except.noConfusion h
    | noopH =>
      rw [runHandlers_cons_noop] at h
      exact ih s h
    | userH n =>
      rw [runHandlers_cons_user] at h
      exact ih s h

theorem step_optsCore (env : Env) (s : MState) (op : Op) (s' : MState)
    (h : step env s op = .ok s') : optsCore s'.opts = optsCore s.opts := by
  cases op with
  | opShow => exact showFn_optsCore env s s' h
  | opClose => exact closeFn_optsCore env s s' h
  | opDestroy => exact destroyFn_optsCore env s s' h
  | accModal =>
    rw [step] at h
    injection h with h
    subst h
    exact forceModal_optsCore env s
  | accOveral =>
    rw [step] at h
    injection h with h
    subst h
    exact forceShadow_optsCore s
  | accClose =>
    rw [step] at h
    cases hc : closeElemAcc env s with
    | ok p =>
      rw [hc] at h
      injection h with h
      subst h
      have hp : p.1 = (forceClose env s).1 := by
        rw [closeElemAcc] at hc
        cases hr : (forceClose env s).2 with
        | some i =>
          rw [hr] at hc
          injection hc with hc
          rw [← hc]
        | none =>
          rw [hr] at hc
          exact Except.noConfusion hc
      rw [hp]
      exact forceClose_optsCore env s
    | error e =>
      rw [hc] at h
      exact Except.noConfusion h
  | watchCreate c =>
    rw [step] at h
    injection h with h
    subst h
    rfl
  | watchShow c =>
    rw [step] at h
    injection h with h
    subst h
    rfl
  | watchClose c =>
    rw [step] at h
    injection h with h
    subst h
    rfl
  | clickOverlay =>
    rw [step] at h
    cases hm : s.shadowMemo with
    | some i =>
      rw [hm] at h
      exact runHandlers_optsCore env _ s s' h
    | none =>
      rw [hm] at h
      injection h with h
      subst h
      rfl
  | clickCloseBtn =>
    rw [step] at h
    cases hm : s.closeMemo with
    | some r =>
      cases r with
      | some i =>
        rw [hm] at h
        exact runHandlers_optsCore env _ s s' h
      | none =>
        rw [hm] at h
        injection h with h
        subst h
        rfl
    | none =>
      rw [hm] at h
      injection h with h
      subst h
      rfl
  | runTimer =>
    rw [step] at h
    cases hp : s.pending with
    | nil =>
      rw [hp] at h
      injection h with h
      subst h
      rfl
    | cons p rest =>
      rw [hp] at h
      injection h with h
      subst h
      rfl

theorem run_optsCore (env : Env) (s : MState) (ops : List Op) (s' : MState)
    (h : run env s ops = .ok s') : optsCore s'.opts = optsCore s.opts := by
  induction ops generalizing s with
  | nil =>
    rw [run] at h
    injection h with h
    subst h
    rfl
  | cons op rest ih =>
    rw [run] at h
    cases hs : step env s op with
    | ok s1 =>
      rw [hs] at h
      exact (ih s1 h).trans (step_optsCore env s op s1 hs)
    | error e =>
      rw [hs] at h
      exact Except.noConfusion h

theorem run_inv (env : Env) (s : MState) (ops : List Op) (s' : MState)
    (hInv : Inv s) (h : run env s ops = .ok s') : Inv s' := by
  induction ops generalizing s with
  | nil =>
    rw [run] at h
    injection h with h
    subst h
    exact hInv
  | cons op rest ih =>
    rw [run] at h
    cases hs : step env s op with
    | ok s1 =>
      rw [hs] at h
      exact ih s1 (step_inv env s op s1 hInv hs) h
    | error e =>
      rw [hs] at h
      exact Except.noConfusion h

/-! ## The claims -/

/-- C1: for every modal instance and every sequence of calls to show(),
close(), destroy() and the element accessors, each of the overlay,
content-box and close-button builder bodies runs at most once (the ghost
counters never exceed 1), and once a memo cell is filled every later call
to the memoized builder returns the cell's contents and leaves the state
unchanged. -/
theorem picoModal_memoize_buildersAtMostOnce (env : Env) (opts : Options)
    (ops : List Op) (s : MState) (h : run env (init opts) ops = .ok s) :
    s.nBuildModal ≤ 1 ∧ s.nBuildOverlay ≤ 1 ∧ s.nBuildClose ≤ 1 ∧
    (∀ i, s.modalMemo = some i → forceModal env s = (s, i)) ∧
    (∀ i, s.shadowMemo = some i → forceShadow s = (s, i)) ∧
    (∀ r, s.closeMemo = some r → forceClose env s = (s, r)) := by
  have hInv := run_inv env (init opts) ops s (inv_init opts) h
  refine ⟨?_, ?_, ?_, ?_, ?_, ?_⟩
  · rw [hInv.cntM]
    split <;> omega
  · rw [hInv.cntS]
    split <;> omega
  · rw [hInv.cntC]
    split <;> omega
  · exact fun i hi => forceModal_of_some env s i hi
  · exact fun i hi => forceShadow_of_some s i hi
  · exact fun r hr => forceClose_of_some env s r hr

theorem picoModal_memoize_buildersAtMostOnce_witness :
    (okOr (run envW (init {}) [Op.opShow, Op.opShow, Op.opClose])
        (init {})).nBuildModal ≤ 1 ∧
    (okOr (run envW (init {}) [Op.opShow, Op.opShow, Op.opClose])
        (init {})).nBuildOverlay ≤ 1 ∧
    (okOr (run envW (init {}) [Op.opShow, Op.opShow, Op.opClose])
        (init {})).nBuildClose ≤ 1 ∧
    (∀ i, (okOr (run envW (init {}) [Op.opShow, Op.opShow, Op.opClose])
        (init {})).modalMemo = some i →
      forceModal envW (okOr (run envW (init {})
        [Op.opShow, Op.opShow, Op.opClose]) (init {})) =
        (okOr (run envW (init {}) [Op.opShow, Op.opShow, Op.opClose])
          (init {}), i)) ∧
    (∀ i, (okOr (run envW (init {}) [Op.opShow, Op.opShow, Op.opClose])
        (init {})).shadowMemo = some i →
      forceShadow (okOr (run envW (init {})
        [Op.opShow, Op.opShow, Op.opClose]) (init {})) =
        (okOr (run envW (init {}) [Op.opShow, Op.opShow, Op.opClose])
          (init {}), i)) ∧
    (∀ r, (okOr (run envW (init {}) [Op.opShow, Op.opShow, Op.opClose])
        (init {})).closeMemo = some r →
      forceClose envW (okOr (run envW (init {})
        [Op.opShow, Op.opShow, Op.opClose]) (init {})) =
        (okOr (run envW (init {}) [Op.opShow, Op.opShow, Op.opClose])
          (init {}), r)) :=
  picoModal_memoize_buildersAtMostOnce envW {}
    [Op.opShow, Op.opShow, Op.opClose] _ rfl

/-- C2: on every reachable, non-destroyed instance, show() succeeds and
leaves both the overlay and the content box with display "block";
repeating show() keeps the same two elements at display "block"; close()
then leaves both at display "none", and repeating close() keeps them at
display "none". -/
theorem picoModal_show_close_visibility (env : Env) (opts : Options)
    (ops : List Op) (s : MState) (h : run env (init opts) ops = .ok s)
    (hd : s.destroyed = false) :
    ∃ s1 s2 t1 t2 oid mid,
      showFn env s = .ok s1 ∧
      s1.shadowMemo = some oid ∧ s1.modalMemo = some mid ∧
      displayOf s1 oid = some (.str "block") ∧
      displayOf s1 mid = some (.str "block") ∧
      showFn env s1 = .ok s2 ∧
      s2.shadowMemo = some oid ∧ s2.modalMemo = some mid ∧
      displayOf s2 oid = some (.str "block") ∧
      displayOf s2 mid = some (.str "block") ∧
      closeFn env s2 = .ok t1 ∧
      t1.shadowMemo = some oid ∧ t1.modalMemo = some mid ∧
      displayOf t1 oid = some (.str "none") ∧
      displayOf t1 mid = some (.str "none") ∧
      closeFn env t1 = .ok t2 ∧
      t2.shadowMemo = some oid ∧ t2.modalMemo = some mid ∧
      displayOf t2 oid = some (.str "none") ∧
      displayOf t2 mid = some (.str "none") := by
  have hInv := run_inv env (init opts) ops s (inv_init opts) h
  obtain ⟨hok1, hsh1, hmo1, hdo1, hdm1, hde1, hInv1, _, _⟩ :=
    showFn_spec env s hInv hd
  obtain ⟨hok2, hsh2, hmo2, hdo2, hdm2, hde2, hInv2, huniS2, huniM2⟩ :=
    showFn_spec env (showResult env s) hInv1 hde1
  have hoid2 : (forceShadow (showResult env s)).2 = (forceShadow s).2 :=
    huniS2 _ hsh1
  have hmid2 : showMid env (showResult env s) = showMid env s :=
    huniM2 _ hmo1
  rw [hoid2] at hsh2 hdo2
  rw [hmid2] at hmo2 hdm2
  obtain ⟨hok3, hsh3, hmo3, hdo3, hdm3, hde3, hInv3, huniS3, huniM3⟩ :=
    closeFn_spec env (showResult env (showResult env s)) hInv2 hde2
  have hoid3 : (forceShadow (showResult env (showResult env s))).2 =
      (forceShadow s).2 := huniS3 _ hsh2
  have hmid3 : closeMid env (showResult env (showResult env s)) =
      showMid env s := huniM3 _ hmo2
  rw [hoid3] at hsh3 hdo3
  rw [hmid3] at hmo3 hdm3
  obtain ⟨hok4, hsh4, hmo4, hdo4, hdm4, _, _, huniS4, huniM4⟩ :=
    closeFn_spec env
      (closeResult env (showResult env (showResult env s))) hInv3 hde3
  have hoid4 : (forceShadow
      (closeResult env (showResult env (showResult env s)))).2 =
      (forceShadow s).2 := huniS4 _ hsh3
  have hmid4 : closeMid env
      (closeResult env (showResult env (showResult env s))) =
      showMid env s := huniM4 _ hmo3
  rw [hoid4] at hsh4 hdo4
  rw [hmid4] at hmo4 hdm4
  exact ⟨_, _, _, _, _, _, hok1, hsh1, hmo1, hdo1, hdm1, hok2, hsh2, hmo2,
    hdo2, hdm2, hok3, hsh3, hmo3, hdo3, hdm3, hok4, hsh4, hmo4, hdo4, hdm4⟩

theorem picoModal_show_close_visibility_witness :
    ∃ s1 s2 t1 t2 oid mid,
      showFn envW (init {}) = .ok s1 ∧
      s1.shadowMemo = some oid ∧ s1.modalMemo = some mid ∧
      displayOf s1 oid = some (.str "block") ∧
      displayOf s1 mid = some (.str "block") ∧
      showFn envW s1 = .ok s2 ∧
      s2.shadowMemo = some oid ∧ s2.modalMemo = some mid ∧
      displayOf s2 oid = some (.str "block") ∧
      displayOf s2 mid = some (.str "block") ∧
      closeFn envW s2 = .ok t1 ∧
      t1.shadowMemo = some oid ∧ t1.modalMemo = some mid ∧
      displayOf t1 oid = some (.str "none") ∧
      displayOf t1 mid = some (.str "none") ∧
      closeFn envW t1 = .ok t2 ∧
      t2.shadowMemo = some oid ∧ t2.modalMemo = some mid ∧
      displayOf t2 oid = some (.str "none") ∧
      displayOf t2 mid = some (.str "none") :=
  picoModal_show_close_visibility envW {} [] (init {}) rfl rfl

/-- C3: on every non-destroyed instance, show() and close() succeed and
only append to the deferred-timer queue: one entry per registered
after-create callback when and only when the content box is built on this
call, followed by one entry per after-show (resp. after-close) callback,
every entry carrying the modal facade as the callback argument; no
callback is invoked synchronously (the invocation log is unchanged).  The
first element accessor that builds the content box schedules the
after-create callbacks the same way. -/
theorem picoModal_observers_deferred_once (env : Env) (s : MState)
    (hd : s.destroyed = false) :
    (showFn env s = .ok (showResult env s) ∧
     (showResult env s).pending =
       (if s.modalMemo.isSome then s.pending
        else s.pending ++ s.createCbs.map (fun c => (c, CbArg.facade))) ++
         s.showCbs.map (fun c => (c, CbArg.facade)) ∧
     (showResult env s).invoked = s.invoked) ∧
    (closeFn env s = .ok (closeResult env s) ∧
     (closeResult env s).pending =
       (if s.modalMemo.isSome then s.pending
        else s.pending ++ s.createCbs.map (fun c => (c, CbArg.facade))) ++
         s.closeCbs.map (fun c => (c, CbArg.facade)) ∧
     (closeResult env s).invoked = s.invoked) ∧
    ((modalElemAcc env s).1.pending =
       (if s.modalMemo.isSome then s.pending
        else s.pending ++ s.createCbs.map (fun c => (c, CbArg.facade))) ∧
     (modalElemAcc env s).1.invoked = s.invoked) := by
  refine ⟨⟨showFn_eq env s hd, ?_, showResult_invoked env s⟩,
    ⟨closeFn_eq env s hd, ?_, closeResult_invoked env s⟩, ?_, ?_⟩
  · rw [showResult_pending]
    by_cases hm : s.modalMemo.isSome <;>
      simp [hm, schedule]
  · rw [closeResult_pending]
    by_cases hm : s.modalMemo.isSome <;>
      simp [hm, schedule]
  · show (forceModal env s).1.pending = _
    rw [forceModal_pending]
    by_cases hm : s.modalMemo.isSome <;>
      simp [hm, schedule]
  · show (forceModal env s).1.invoked = s.invoked
    rw [forceModal_invoked]

theorem picoModal_observers_deferred_once_witness :
    (showFn envW (okOr (run envW (init {})
        [Op.watchCreate 9, Op.watchShow 7, Op.watchClose 8]) (init {})) =
      .ok (showResult envW (okOr (run envW (init {})
        [Op.watchCreate 9, Op.watchShow 7, Op.watchClose 8]) (init {}))) ∧
     (showResult envW (okOr (run envW (init {})
        [Op.watchCreate 9, Op.watchShow 7, Op.watchClose 8])
        (init {}))).pending =
       (if (okOr (run envW (init {})
          [Op.watchCreate 9, Op.watchShow 7, Op.watchClose 8])
          (init {})).modalMemo.isSome then
          (okOr (run envW (init {})
            [Op.watchCreate 9, Op.watchShow 7, Op.watchClose 8])
            (init {})).pending
        else (okOr (run envW (init {})
            [Op.watchCreate 9, Op.watchShow 7, Op.watchClose 8])
            (init {})).pending ++
          ((okOr (run envW (init {})
            [Op.watchCreate 9, Op.watchShow 7, Op.watchClose 8])
            (init {})).createCbs.map (fun c => (c, CbArg.facade)))) ++
         ((okOr (run envW (init {})
            [Op.watchCreate 9, Op.watchShow 7, Op.watchClose 8])
            (init {})).showCbs.map (fun c => (c, CbArg.facade))) ∧
     (showResult envW (okOr (run envW (init {})
        [Op.watchCreate 9, Op.watchShow 7, Op.watchClose 8])
        (init {}))).invoked =
       (okOr (run envW (init {})
        [Op.watchCreate 9, Op.watchShow 7, Op.watchClose 8])
        (init {})).invoked) ∧
    (closeFn envW (okOr (run envW (init {})
        [Op.watchCreate 9, Op.watchShow 7, Op.watchClose 8]) (init {})) =
      .ok (closeResult envW (okOr (run envW (init {})
        [Op.watchCreate 9, Op.watchShow 7, Op.watchClose 8]) (init {}))) ∧
     (closeResult envW (okOr (run envW (init {})
        [Op.watchCreate 9, Op.watchShow 7, Op.watchClose 8])
        (init {}))).pending =
       (if (okOr (run envW (init {})
          [Op.watchCreate 9, Op.watchShow 7, Op.watchClose 8])
          (init {})).modalMemo.isSome then
          (okOr (run envW (init {})
            [Op.watchCreate 9, Op.watchShow 7, Op.watchClose 8])
            (init {})).pending
        else (okOr (run envW (init {})
            [Op.watchCreate 9, Op.watchShow 7, Op.watchClose 8])
            (init {})).pending ++
          ((okOr (run envW (init {})
            [Op.watchCreate 9, Op.watchShow 7, Op.watchClose 8])
            (init {})).createCbs.map (fun c => (c, CbArg.facade)))) ++
         ((okOr (run envW (init {})
            [Op.watchCreate 9, Op.watchShow 7, Op.watchClose 8])
            (init {})).closeCbs.map (fun c => (c, CbArg.facade))) ∧
     (closeResult envW (okOr (run envW (init {})
        [Op.watchCreate 9, Op.watchShow 7, Op.watchClose 8])
        (init {}))).invoked =
       (okOr (run envW (init {})
        [Op.watchCreate 9, Op.watchShow 7, Op.watchClose 8])
        (init {})).invoked) ∧
    ((modalElemAcc envW (okOr (run envW (init {})
        [Op.watchCreate 9, Op.watchShow 7, Op.watchClose 8])
        (init {}))).1.pending =
       (if (okOr (run envW (init {})
          [Op.watchCreate 9, Op.watchShow 7, Op.watchClose 8])
          (init {})).modalMemo.isSome then
          (okOr (run envW (init {})
            [Op.watchCreate 9, Op.watchShow 7, Op.watchClose 8])
            (init {})).pending
        else (okOr (run envW (init {})
            [Op.watchCreate 9, Op.watchShow 7, Op.watchClose 8])
            (init {})).pending ++
          ((okOr (run envW (init {})
            [Op.watchCreate 9, Op.watchShow 7, Op.watchClose 8])
            (init {})).createCbs.map (fun c => (c, CbArg.facade)))) ∧
     (modalElemAcc envW (okOr (run envW (init {})
        [Op.watchCreate 9, Op.watchShow 7, Op.watchClose 8])
        (init {}))).1.invoked =
       (okOr (run envW (init {})
        [Op.watchCreate 9, Op.watchShow 7, Op.watchClose 8])
        (init {})).invoked) :=
  picoModal_observers_deferred_once envW _ rfl

/-- C4 counterexample: calling show() right after destroy() does not
silently no-op; it raises a TypeError, because destroy() overwrote the
builder variables with undefined. -/
theorem picoModal_destroy_then_show_raises :
    run envW (init {}) [Op.opDestroy, Op.opShow] =
      .error (.typeErr "shadowElem is not a function") := rfl

/-- C4 amended: after destroy(), show(), close() and destroy() raise a
TypeError (the `shadowElem`/`modalElem` variables are undefined), while
the element accessors captured the original memoized builders: they still
succeed and return the memoized element. -/
theorem picoModal_after_destroy_behavior (env : Env) (s : MState)
    (hd : s.destroyed = true) :
    (∃ e, showFn env s = .error e) ∧
    (∃ e, closeFn env s = .error e) ∧
    (∃ e, destroyFn env s = .error e) ∧
    step env s .accModal = .ok (modalElemAcc env s).1 ∧
    step env s .accOveral = .ok (overalElemAcc s).1 ∧
    (∀ i, s.modalMemo = some i → modalElemAcc env s = (s, i)) ∧
    (∀ i, s.shadowMemo = some i → overalElemAcc s = (s, i)) := by
  refine ⟨⟨.typeErr "shadowElem is not a function", ?_⟩,
    ⟨.typeErr "shadowElem is not a function", ?_⟩,
    ⟨.typeErr "modalElem is not a function", ?_⟩, rfl, rfl, ?_, ?_⟩
  · rw [showFn, if_pos hd]
  · rw [closeFn, if_pos hd]
  · rw [destroyFn, if_pos hd]
  · intro i hi
    rw [modalElemAcc, forceModal_of_some env s i hi]
  · intro i hi
    rw [overalElemAcc, forceShadow_of_some s i hi]

theorem picoModal_after_destroy_behavior_witness :
    (∃ e, showFn envW (okOr (run envW (init {}) [Op.opDestroy])
        (init {})) = .error e) ∧
    (∃ e, closeFn envW (okOr (run envW (init {}) [Op.opDestroy])
        (init {})) = .error e) ∧
    (∃ e, destroyFn envW (okOr (run envW (init {}) [Op.opDestroy])
        (init {})) = .error e) ∧
    step envW (okOr (run envW (init {}) [Op.opDestroy]) (init {}))
        .accModal =
      .ok (modalElemAcc envW (okOr (run envW (init {}) [Op.opDestroy])
        (init {}))).1 ∧
    step envW (okOr (run envW (init {}) [Op.opDestroy]) (init {}))
        .accOveral =
      .ok (overalElemAcc (okOr (run envW (init {}) [Op.opDestroy])
        (init {}))).1 ∧
    (∀ i, (okOr (run envW (init {}) [Op.opDestroy])
        (init {})).modalMemo = some i →
      modalElemAcc envW (okOr (run envW (init {}) [Op.opDestroy])
        (init {})) =
        (okOr (run envW (init {}) [Op.opDestroy]) (init {}), i)) ∧
    (∀ i, (okOr (run envW (init {}) [Op.opDestroy])
        (init {})).shadowMemo = some i →
      overalElemAcc (okOr (run envW (init {}) [Op.opDestroy])
        (init {})) =
        (okOr (run envW (init {}) [Op.opDestroy]) (init {}), i)) :=
  picoModal_after_destroy_behavior envW _ rfl

/-- C5 counterexample: when the supplied `overlayStyles` map defines
`opacity`, building the overlay (via show()) writes a `filter` key into
the caller's map: the options object observably changes. -/
theorem picoModal_opacity_mutates_options :
    (okOr (run envW
        (init { overlayStyles := some [("opacity", SVal.num 1)] })
        [Op.opShow]) (init {})).opts ≠
      ({ overlayStyles := some [("opacity", SVal.num 1)] } :
        Options) := by
  decide

/-- C5 amended: as long as no explicitly supplied style map defines an
`opacity` key, the options object (including its nested style maps) is
unchanged by every sequence of lifecycle operations; and the option
accessor returns the explicit value when the key is defined and the
default otherwise. -/
theorem picoModal_options_unchanged_without_opacity (env : Env)
    (opts : Options) (ops : List Op) (s : MState)
    (h : run env (init opts) ops = .ok s)
    (hno : noOpacityB opts = true) :
    s.opts = opts ∧
    (∀ (x d : SVal), getOpt (some x) d = x) ∧
    (∀ (d : SVal), getOpt (none : Option SVal) d = d) := by
  refine ⟨run_opts_pure env (init opts) ops s hno h, ?_, ?_⟩
  · intro x d
    rfl
  · intro d
    rfl

theorem picoModal_options_unchanged_without_opacity_witness :
    (okOr (run envW (init {}) [Op.opShow]) (init {})).opts =
      ({} : Options) ∧
    (∀ (x d : SVal), getOpt (some x) d = x) ∧
    (∀ (d : SVal), getOpt (none : Option SVal) d = d) :=
  picoModal_options_unchanged_without_opacity envW {} [Op.opShow] _ rfl rfl

/-- C6: on every reachable instance whose overlay exists, when
`overlayClose` is `false` a click on the overlay leaves the state exactly
unchanged (no close, no hiding, no after-close scheduling); when
`overlayClose` is true or unset, a click on the overlay is exactly a call
to the close function. -/
theorem picoModal_overlayClose_click (env : Env) (opts : Options)
    (ops : List Op) (s : MState) (oid : Nat)
    (h : run env (init opts) ops = .ok s)
    (hs : s.shadowMemo = some oid) :
    (opts.overlayClose = some false →
      step env s .clickOverlay = .ok s) ∧
    (getOpt opts.overlayClose true = true →
      step env s .clickOverlay = closeFn env s) := by
  have hInv := run_inv env (init opts) ops s (inv_init opts) h
  have hoc : s.opts.overlayClose = opts.overlayClose :=
    optsCore_overlayClose _ _ (run_optsCore env (init opts) ops s h)
  have hstep : step env s .clickOverlay =
      runHandlers env s (elemHandlers s oid) := by
    show (match s.shadowMemo with
      | some i => runHandlers env s (elemHandlers s i)
      | none => .ok s) = _
    rw [hs]
  have hh := hInv.hS oid hs
  constructor
  · intro hfalse
    have hnoop : overlayHandler s.opts = .noopH := by
      simp [overlayHandler, hoc, hfalse, getOpt]
    rw [hstep, hh, hnoop, runHandlers_cons_noop, runHandlers_nil]
  · intro htrue
    have hclose : overlayHandler s.opts = .closeH := by
      simp [overlayHandler, hoc, htrue]
    rw [hstep, hh, hclose, runHandlers_single_close]

theorem picoModal_overlayClose_click_witness :
    (({ overlayClose := some false } : Options).overlayClose =
        some false →
      step envW (okOr (run envW (init { overlayClose := some false })
        [Op.accOveral]) (init {})) .clickOverlay =
        .ok (okOr (run envW (init { overlayClose := some false })
          [Op.accOveral]) (init {}))) ∧
    (getOpt ({ overlayClose := some false } : Options).overlayClose true =
        true →
      step envW (okOr (run envW (init { overlayClose := some false })
        [Op.accOveral]) (init {})) .clickOverlay =
        closeFn envW (okOr (run envW (init { overlayClose := some false })
          [Op.accOveral]) (init {}))) :=
  picoModal_overlayClose_click envW { overlayClose := some false }
    [Op.accOveral] _ 0 rfl rfl

/-- C7: on every reachable instance, when `closeButton` is false the
close-button builder returns no handle, creates no element, and no
element anywhere in the document carries the `pico-close` class; when
`closeButton` is true or unset and the close button has not been built
yet, forcing it creates exactly the close-button element as a child of
the content box, with its click handler bound to close. -/
theorem picoModal_closeButton_build (env : Env) (opts : Options)
    (ops : List Op) (s : MState) (h : run env (init opts) ops = .ok s) :
    (opts.closeButton = some false →
      (forceClose env s).2 = none ∧
      (forceClose env s).1.dom = s.dom ∧
      (∀ (j : Nat) (e : Elem), s.dom[j]? = some e →
        ¬ e.className = "pico-close")) ∧
    (getOpt opts.closeButton true = true → s.closeMemo = none →
      ∃ mid,
        (forceClose env s).2 = some ((forceModal env s).1.dom.length) ∧
        (forceClose env s).1.dom[(forceModal env s).1.dom.length]? =
          some (closeElemOf (forceModal env s).1.opts mid) ∧
        (forceModal env s).1.modalMemo = some mid ∧
        (closeElemOf (forceModal env s).1.opts mid).parent = some mid ∧
        (closeElemOf (forceModal env s).1.opts mid).handlers =
          [Handler.closeH]) := by
  have hInv := run_inv env (init opts) ops s (inv_init opts) h
  have hcb : s.opts.closeButton = opts.closeButton :=
    optsCore_closeButton _ _ (run_optsCore env (init opts) ops s h)
  constructor
  · intro hfalse
    have hf : getOpt s.opts.closeButton true = false := by
      rw [hcb, hfalse]
      rfl
    have hdis := hInv.disC hf
    refine ⟨?_, ?_, ?_⟩
    · cases hdis with
      | inl hnone =>
        rw [forceClose_of_none env s hnone, buildClose_of_false env s hf]
      | inr hsnone =>
        rw [forceClose_of_some env s none hsnone]
    · cases hdis with
      | inl hnone =>
        rw [forceClose_of_none env s hnone, buildClose_of_false env s hf]
      | inr hsnone =>
        rw [forceClose_of_some env s none hsnone]
    · intro j e hj hcls
      have := hInv.clsC j e hj hcls
      cases hdis with
      | inl hnone =>
        rw [hnone] at this
        exact Option.noConfusion this
      | inr hsnone =>
        rw [hsnone] at this
        injection this with this
        exact Option.noConfusion this
  · intro htrue hcm
    have hb : getOpt s.opts.closeButton true = true := by
      rw [hcb]
      exact htrue
    refine ⟨(forceModal env s).2, ?_, ?_, forceModal_modalMemo env s,
      rfl, rfl⟩
    · rw [forceClose_of_none env s hcm]
      exact buildClose_ret_of_true env s hb
    · rw [forceClose_of_none env s hcm]
      show (buildClose env s).1.dom[(forceModal env s).1.dom.length]? = _
      rw [buildClose_dom_of_true env s hb]
      rw [if_neg (lt_irrefl _), if_pos rfl]

theorem picoModal_closeButton_build_witness :
    (({ closeButton := some false } : Options).closeButton = some false →
      (forceClose envW (okOr (run envW (init { closeButton := some false })
          [Op.opShow]) (init {}))).2 = none ∧
      (forceClose envW (okOr (run envW (init { closeButton := some false })
          [Op.opShow]) (init {}))).1.dom =
        (okOr (run envW (init { closeButton := some false })
          [Op.opShow]) (init {})).dom ∧
      (∀ (j : Nat) (e : Elem),
        (okOr (run envW (init { closeButton := some false })
          [Op.opShow]) (init {})).dom[j]? = some e →
        ¬ e.className = "pico-close")) ∧
    (getOpt ({ closeButton := some false } : Options).closeButton true =
        true →
      (okOr (run envW (init { closeButton := some false })
        [Op.opShow]) (init {})).closeMemo = none →
      ∃ mid,
        (forceClose envW (okOr (run envW
          (init { closeButton := some false }) [Op.opShow])
          (init {}))).2 =
          some ((forceModal envW (okOr (run envW
            (init { closeButton := some false }) [Op.opShow])
            (init {}))).1.dom.length) ∧
        (forceClose envW (okOr (run envW
          (init { closeButton := some false }) [Op.opShow])
          (init {}))).1.dom[(forceModal envW (okOr (run envW
            (init { closeButton := some false }) [Op.opShow])
            (init {}))).1.dom.length]? =
          some (closeElemOf (forceModal envW (okOr (run envW
            (init { closeButton := some false }) [Op.opShow])
            (init {}))).1.opts mid) ∧
        (forceModal envW (okOr (run envW
          (init { closeButton := some false }) [Op.opShow])
          (init {}))).1.modalMemo = some mid ∧
        (closeElemOf (forceModal envW (okOr (run envW
          (init { closeButton := some false }) [Op.opShow])
          (init {}))).1.opts mid).parent = some mid ∧
        (closeElemOf (forceModal envW (okOr (run envW
          (init { closeButton := some false }) [Op.opShow])
          (init {}))).1.opts mid).handlers = [Handler.closeH]) :=
  picoModal_closeButton_build envW { closeButton := some false }
    [Op.opShow] _ rfl

theorem buildModal_style_lookups (env : Env) (s : MState)
    (hmw : alookup (getOpt s.opts.modalStyles modalDefault) "width" = none)
    (hmm : alookup (getOpt s.opts.modalStyles modalDefault) "margin" = none) :
    alookup (elemStyle (buildModal env s).1 (buildModal env s).2) "width" =
      some (.px (getOpt s.opts.width (env.widthOf s.dom.length))) ∧
    alookup (elemStyle (buildModal env s).1 (buildModal env s).2)
        "margin" =
      some (.margin0001px
        (-(getOpt s.opts.width (env.widthOf s.dom.length) / 2))) := by
  have hdom : (buildModal env s).1.dom[s.dom.length]? =
      some (modalElemOf env s.opts s.dom.length) := by
    rw [buildModal_dom]
    rw [if_neg (lt_irrefl _), if_pos rfl]
  have hstyle : elemStyle (buildModal env s).1 (buildModal env s).2 =
      (modalElemOf env s.opts s.dom.length).style := by
    show elemStyle (buildModal env s).1 s.dom.length = _
    simp [elemStyle, hdom]
  have haf : addFilter (modalWidthMap
      (getOpt s.opts.width (env.widthOf s.dom.length))) =
      modalWidthMap (getOpt s.opts.width (env.widthOf s.dom.length)) :=
    addFilter_of_noOpacity _ (by simp [modalWidthMap, alookup])
  have houter_w : alookup
      (addFilter (getOpt s.opts.modalStyles modalDefault)) "width" =
      none := by
    rw [alookup_addFilter _ _ (by decide)]
    exact hmw
  have houter_m : alookup
      (addFilter (getOpt s.opts.modalStyles modalDefault)) "margin" =
      none := by
    rw [alookup_addFilter _ _ (by decide)]
    exact hmm
  rw [hstyle]
  show alookup (applyMap
      (applyMap (applyMap [] (addFilter modalBase))
        (addFilter (modalWidthMap
          (getOpt s.opts.width (env.widthOf s.dom.length)))))
      (addFilter (getOpt s.opts.modalStyles modalDefault))) "width" =
      _ ∧
    alookup (applyMap
      (applyMap (applyMap [] (addFilter modalBase))
        (addFilter (modalWidthMap
          (getOpt s.opts.width (env.widthOf s.dom.length)))))
      (addFilter (getOpt s.opts.modalStyles modalDefault))) "margin" = _
  rw [alookup_applyMap_nokey _ _ _ houter_w,
    alookup_applyMap_nokey _ _ _ houter_m, haf]
  have happ : ∀ (X : StyleMap) (w : ℚ), applyMap X (modalWidthMap w) =
      aset (aset X "width" (SVal.px w)) "margin"
        (SVal.margin0001px (-(w / 2))) := by
    intro X w
    rfl
  rw [happ]
  constructor
  · rw [alookup_aset, if_neg (by decide), alookup_aset, if_pos rfl]
  · rw [alookup_aset, if_pos rfl]

/-- C8: when the content box is built, an explicit numeric `width` w makes
its style carry width `w` pixels and a left margin of `-(w / 2)` pixels
(the margin string "0 0 0 " followed by that number and "px"); with no
`width` option the same two styles are computed from the measured
rendered width of the freshly created element.  Hypothesis: the
user-supplied `modalStyles` map (applied afterwards) does not itself
override `width`/`margin`. -/
theorem picoModal_width_margin (env : Env) (s : MState)
    (hms : ∀ m, s.opts.modalStyles = some m →
      alookup m "width" = none ∧ alookup m "margin" = none) :
    (∀ w, s.opts.width = some w →
      alookup (elemStyle (buildModal env s).1 (buildModal env s).2)
        "width" = some (.px w) ∧
      alookup (elemStyle (buildModal env s).1 (buildModal env s).2)
        "margin" = some (.margin0001px (-(w / 2)))) ∧
    (s.opts.width = none →
      alookup (elemStyle (buildModal env s).1 (buildModal env s).2)
        "width" = some (.px (env.widthOf s.dom.length)) ∧
      alookup (elemStyle (buildModal env s).1 (buildModal env s).2)
        "margin" =
        some (.margin0001px (-(env.widthOf s.dom.length / 2)))) := by
  have hmw : alookup (getOpt s.opts.modalStyles modalDefault) "width" =
      none := by
    cases hmo : s.opts.modalStyles with
    | some m => exact (hms m hmo).1
    | none => decide
  have hmm : alookup (getOpt s.opts.modalStyles modalDefault) "margin" =
      none := by
    cases hmo : s.opts.modalStyles with
    | some m => exact (hms m hmo).2
    | none => decide
  have hmain := buildModal_style_lookups env s hmw hmm
  constructor
  · intro w hw
    rw [hw] at hmain
    exact hmain
  · intro hw
    rw [hw] at hmain
    exact hmain

theorem picoModal_width_margin_witness :
    (∀ w, (init { width := some 200 } : MState).opts.width = some w →
      alookup (elemStyle (buildModal envW (init { width := some 200 })).1
        (buildModal envW (init { width := some 200 })).2) "width" =
        some (.px w) ∧
      alookup (elemStyle (buildModal envW (init { width := some 200 })).1
        (buildModal envW (init { width := some 200 })).2) "margin" =
        some (.margin0001px (-(w / 2)))) ∧
    ((init { width := some 200 } : MState).opts.width = none →
      alookup (elemStyle (buildModal envW (init { width := some 200 })).1
        (buildModal envW (init { width := some 200 })).2) "width" =
        some (.px (envW.widthOf
          (init { width := some 200 } : MState).dom.length)) ∧
      alookup (elemStyle (buildModal envW (init { width := some 200 })).1
        (buildModal envW (init { width := some 200 })).2) "margin" =
        some (.margin0001px (-(envW.widthOf
          (init { width := some 200 } : MState).dom.length / 2)))) :=
  picoModal_width_margin envW (init { width := some 200 })
    (fun _ hm => Option.noConfusion hm)

/-- C9 counterexample: the element handle's `hide` method has no return
statement, so it returns undefined, not the handle: a chain through
`hide` is not well-defined. -/
theorem picoModal_hide_returns_undefined :
    (callMethod [mkDiv none] 0 Method.mHide).2 ≠ some 0 := by
  decide

/-- C9 amended: `stylize`, `clazz`, `html`, and `onClick` each end with
`return iface` and hand back the same element handle for chaining, but
`hide` and `show` have no return statement and return undefined. -/
theorem picoModal_method_returns (d : Dom) (i : Nat) (m : Method) :
    (callMethod d i m).2 =
      match m with
      | .mHide => none
      | .mShow => none
      | _ => some i := by
  cases m <;> rfl

theorem picoModal_method_returns_witness :
    (callMethod [mkDiv none] 0 (Method.mClazz "a")).2 = some 0 :=
  picoModal_method_returns [mkDiv none] 0 (Method.mClazz "a")

/-- C10: on every reachable instance created with `closeButton := false`,
the public closeElem() accessor raises a TypeError (it reads `.elem` of
the undefined result of the close-button builder); with `closeButton`
true or unset it returns an element without error. -/
theorem picoModal_closeElemAcc_total_iff_closeButton (env : Env)
    (opts : Options) (ops : List Op) (s : MState)
    (h : run env (init opts) ops = .ok s) :
    (opts.closeButton = some false →
      closeElemAcc env s =
        .error (.typeErr "cannot read property elem of undefined")) ∧
    (getOpt opts.closeButton true = true →
      ∃ s' i, closeElemAcc env s = .ok (s', i)) := by
  have hInv := run_inv env (init opts) ops s (inv_init opts) h
  have hcb : s.opts.closeButton = opts.closeButton :=
    optsCore_closeButton _ _ (run_optsCore env (init opts) ops s h)
  constructor
  · intro hfalse
    have hf : getOpt s.opts.closeButton true = false := by
      rw [hcb, hfalse]
      rfl
    have hret : (forceClose env s).2 = none := by
      cases hInv.disC hf with
      | inl hnone =>
        rw [forceClose_of_none env s hnone, buildClose_of_false env s hf]
      | inr hsnone =>
        rw [forceClose_of_some env s none hsnone]
    rw [closeElemAcc, hret]
  · intro htrue
    have hb : getOpt s.opts.closeButton true = true := by
      rw [hcb]
      exact htrue
    cases hm : s.closeMemo with
    | none =>
      have hret : (forceClose env s).2 =
          some ((forceModal env s).1.dom.length) := by
        rw [forceClose_of_none env s hm]
        exact buildClose_ret_of_true env s hb
      refine ⟨(forceClose env s).1, (forceModal env s).1.dom.length, ?_⟩
      rw [closeElemAcc, hret]
    | some r =>
      cases r with
      | some i =>
        have hret : (forceClose env s).2 = some i := by
          rw [forceClose_of_some env s _ hm]
        refine ⟨(forceClose env s).1, i, ?_⟩
        rw [closeElemAcc, hret]
      | none =>
        have := hInv.noneBtn hm
        rw [hb] at this
        exact Bool.noConfusion this

theorem picoModal_closeElemAcc_total_iff_closeButton_witness :
    (({ closeButton := some false } : Options).closeButton = some false →
      closeElemAcc envW (okOr (run envW
        (init { closeButton := some false }) []) (init {})) =
        .error (.typeErr "cannot read property elem of undefined")) ∧
    (getOpt ({ closeButton := some false } : Options).closeButton true =
        true →
      ∃ s' i, closeElemAcc envW (okOr (run envW
        (init { closeButton := some false }) []) (init {})) =
          .ok (s', i)) :=
  picoModal_closeElemAcc_total_iff_closeButton envW
    { closeButton := some false } [] _ rfl

end PicoModal
